import Mathlib

/-!
# Verification of the hourly-interval ETL pipeline

A shallow embedding, in Lean 4, of the ETL orchestrator and its helpers:

* `src/shared/utils/date.py` — `get_hour_intervals`
* `src/smart_bidding/etl/dictionary.py` — `Dictionary`
* `src/shared/utils/transform_ops.py` — `AbstractTransformer.get_mapped_value`
* `src/smart_bidding/etl/transform.py` — `Transformer.transform_dask_df`
* `src/smart_bidding/etl/processor.py` — `Processor._submit_futures`,
  `Processor._process_future_results`
* `src/smart_bidding/etl/run_etl.py` — `submit_futures`, `process_future_results`

Timestamps are modelled as natural numbers counting seconds; the conversion
from a civil date to such a count (`days_from_civil`, `toSecs`) and back
(`civil_from_days`) follows CPython's `datetime` module (`_ymd2ord`,
`_ord2ymd`), so the rendered partition keys match Python's `strftime`.  Python exceptions are modelled with
`Except`: a raised `ValueError`/`KeyError`/driver error is an `.error`
carrying the message.  Mutable state (the transformer's logged-key sets) is
threaded explicitly, and log output is returned as a list of messages.
-/

/-! ## Interval generator (`src/shared/utils/date.py`) -/

/-- The loop of `get_hour_intervals`: starting from `start`, emit `n` windows,
each ending one second before the next hour boundary, the next window starting
one second after the previous end (`date.py`, lines 54-59). -/
def hourWindowsLoop : Nat → Nat → List (Nat × Nat)
  | 0, _ => []
  | n + 1, start => (start, start + 3600 - 1) :: hourWindowsLoop n (start + 3600 - 1 + 1)

/-- Shallow embedding of `get_hour_intervals(start_date, end_date)`
(`date.py`, lines 26-61).  `none` models an absent (`None`) argument; a raised
`ValueError` is an `.error` carrying the message. -/
def get_hour_intervals (start_date end_date : Option Nat) :
    Except String (List (Nat × Nat)) :=
  match start_date, end_date with
  | none, _ => .error "Both start_date and end_date must be provided"
  | some _, none => .error "Both start_date and end_date must be provided"
  | some s, some e =>
    if s ≥ e then .error "start_date must be before end_date"
    else
      let total_seconds := e - s
      let total_hours :=
        total_seconds / 3600 + (if total_seconds % 3600 > 0 then 1 else 0)
      .ok (hourWindowsLoop total_hours s)

/-! ## Civil-calendar arithmetic

`datetime` values are modelled as seconds since 1970-01-01 00:00:00.  The
date conversions follow CPython's `datetime` module: `ymd2ord` / `ord2ymd`
are `datetime._ymd2ord` / `datetime._ord2ymd` (proleptic-Gregorian ordinals,
day 1 = 0001-01-01; the ordinal of 1970-01-01 is 719163). -/

/-- `datetime._is_leap`. -/
def is_leap (y : Nat) : Prop :=
  y % 4 = 0 ∧ (y % 100 ≠ 0 ∨ y % 400 = 0)

instance (y : Nat) : Decidable (is_leap y) := by
  unfold is_leap
  infer_instance

/-- `datetime._DAYS_BEFORE_MONTH` (non-leap cumulative days, index 1-12). -/
def days_before_month_tbl (m : Nat) : Nat :=
  if m = 1 then 0 else if m = 2 then 31 else if m = 3 then 59
  else if m = 4 then 90 else if m = 5 then 120 else if m = 6 then 151
  else if m = 7 then 181 else if m = 8 then 212 else if m = 9 then 243
  else if m = 10 then 273 else if m = 11 then 304 else if m = 12 then 334
  else 335

/-- `datetime._DAYS_IN_MONTH` (non-leap month lengths, index 1-12). -/
def days_in_month_tbl (m : Nat) : Nat :=
  if m = 1 then 31 else if m = 2 then 28 else if m = 3 then 31
  else if m = 4 then 30 else if m = 5 then 31 else if m = 6 then 30
  else if m = 7 then 31 else if m = 8 then 31 else if m = 9 then 30
  else if m = 10 then 31 else if m = 11 then 30 else if m = 12 then 31
  else 0

/-- `datetime._days_before_year`. -/
def days_before_year (y : Nat) : Nat :=
  (y - 1) * 365 + (y - 1) / 4 - (y - 1) / 100 + (y - 1) / 400

/-- `datetime._ymd2ord`: the proleptic-Gregorian ordinal of `y-m-d`. -/
def ymd2ord (y m d : Nat) : Nat :=
  days_before_year y + days_before_month_tbl m
    + (if 2 < m ∧ is_leap y then 1 else 0) + d

/-- The body of `datetime._ord2ymd` after its four `divmod` steps: `q400`
eras, `q100` centuries, `q4` quadrennia, `q1` years and `r4` days remain. -/
def ord2ymd_core (q400 q100 q4 q1 r4 : Nat) : Nat × Nat × Nat :=
  let year := q400 * 400 + q100 * 100 + q4 * 4 + q1 + 1
  if q1 = 4 ∨ q100 = 4 then (year - 1, 12, 31)
  else
    let leapadd := if q1 = 3 ∧ (q4 ≠ 24 ∨ q100 = 3) then 1 else 0
    let month := (r4 + 50) / 32
    let preceding := days_before_month_tbl month
      + (if 2 < month then leapadd else 0)
    if r4 < preceding then
      (year, month - 1, r4 + 1 -
        (preceding - (days_in_month_tbl (month - 1)
          + (if month - 1 = 2 then leapadd else 0))))
    else
      (year, month, r4 - preceding + 1)

/-- `datetime._ord2ymd`: the civil date of ordinal `n`. -/
def ord2ymd (n : Nat) : Nat × Nat × Nat :=
  let n0 := n - 1
  ord2ymd_core (n0 / 146097) (n0 % 146097 / 36524) (n0 % 146097 % 36524 / 1461)
    (n0 % 146097 % 36524 % 1461 / 365) (n0 % 146097 % 36524 % 1461 % 365)

/-- Days since 1970-01-01 of the civil date `y-m-d` (valid for `y ≥ 1970`). -/
def days_from_civil (y m d : Nat) : Nat :=
  ymd2ord y m d - 719163

/-- The civil date `(y, m, d)` of day `z` counted from 1970-01-01. -/
def civil_from_days (z : Nat) : Nat × Nat × Nat :=
  ord2ymd (z + 719163)

/-- Seconds since 1970-01-01 00:00:00 of the datetime `y-m-d hh:mi:ss`. -/
def toSecs (y m d hh mi ss : Nat) : Nat :=
  86400 * days_from_civil y m d + 3600 * hh + 60 * mi + ss

/-! ## Decimal rendering (Python `strftime` / `str(datetime)`) -/

/-- The ASCII digit character for `n < 10`. -/
def digitChar (n : Nat) : Char := Char.ofNat (48 + n)

/-- Structural-recursion worker for `renderNat`: `fuel` bounds the digit
count (any `fuel > n` suffices). -/
def renderNatAux : Nat → Nat → List Char
  | 0, _ => []
  | fuel + 1, n =>
    if n < 10 then [digitChar n]
    else renderNatAux fuel (n / 10) ++ [digitChar (n % 10)]

/-- The decimal digits of `n`, most significant first. -/
def renderNat (n : Nat) : List Char := renderNatAux (n + 1) n

/-- `n` rendered in decimal, zero-padded on the left to width `w`. -/
def padNat (w n : Nat) : List Char :=
  List.replicate (w - (renderNat n).length) '0' ++ renderNat n

/-- Reads a digit string back as a number (used to invert `padNat`). -/
def decodeDigits (cs : List Char) : Nat :=
  cs.foldl (fun a c => 10 * a + (c.toNat - 48)) 0

/-- `strftime('%Y-%m-%d_%H')` of the timestamp `t` (seconds): the partition
key used by both draining loops. -/
def strftime_Ymd_H (t : Nat) : String :=
  let c := civil_from_days (t / 86400)
  String.mk (padNat 4 c.1 ++ ('-' :: padNat 2 c.2.1) ++ ('-' :: padNat 2 c.2.2)
    ++ ('_' :: padNat 2 (t / 3600 % 24)))

/-- `str(datetime)` of the timestamp `t` (seconds): `YYYY-MM-DD HH:MM:SS`,
the form interpolated into `QueryExecutionError` messages. -/
def datetime_str (t : Nat) : String :=
  let c := civil_from_days (t / 86400)
  String.mk (padNat 4 c.1 ++ ('-' :: padNat 2 c.2.1) ++ ('-' :: padNat 2 c.2.2)
    ++ (' ' :: padNat 2 (t / 3600 % 24)) ++ (':' :: padNat 2 (t / 60 % 60))
    ++ (':' :: padNat 2 (t % 60)))

/-! ## Dictionary (`src/smart_bidding/etl/dictionary.py`) -/

/-- A Python `dict[int, tuple[int, int]]`, as an association list with
last-write-wins update. -/
abbrev DictMap := List (Int × (Int × Int))

/-- Membership-respecting lookup (`x in d` / `d.get(x, default)`). -/
def dictFind? (m : DictMap) (k : Int) : Option (Int × Int) :=
  (m.find? (fun p => p.1 == k)).map (fun p => p.2)

/-- `d[k] = v`: overwrite the value when the key exists, append otherwise. -/
def dictSet (m : DictMap) (k : Int) (v : Int × Int) : DictMap :=
  if m.any (fun p => p.1 == k) then
    m.map (fun p => if p.1 == k then (k, v) else p)
  else m ++ [(k, v)]

/-- One record of `devices.json`: an id, a brand name and a device-type id. -/
structure DeviceRecord where
  id : Int
  name : String
  device_type_id : Int
deriving DecidableEq

/-- One record of `product_categories.json` / `content_categories.json`. -/
structure CategoryRecord where
  id : Int
  parent : Int
deriving DecidableEq

/-- `Dictionary._load_devices` (`dictionary.py`, lines 21-34): brand indices
are assigned densely in first-seen order of the normalised brand name. -/
def load_devices (devices_data : List DeviceRecord) : DictMap :=
  (devices_data.foldl
    (fun (acc : List (String × Int) × DictMap) device =>
      let brand_name := (device.name.toLower).replace " " "_"
      let device_brand :=
        if acc.1.any (fun p => p.1 == brand_name) then acc.1
        else acc.1 ++ [(brand_name, (acc.1.length : Int) + 1)]
      let idx := ((device_brand.find? (fun p => p.1 == brand_name)).map
        (fun p => p.2)).getD 0
      (device_brand, dictSet acc.2 device.id (device.device_type_id, idx)))
    ([], [])).2

/-- `Dictionary._load_product_categories` (`dictionary.py`, lines 36-44). -/
def load_product_categories (product_categories_data : List CategoryRecord) : DictMap :=
  product_categories_data.foldl
    (fun acc product_category =>
      dictSet acc product_category.id (product_category.id, product_category.parent))
    []

/-- `Dictionary._load_content_categories` (`dictionary.py`, lines 46-54). -/
def load_content_categories (content_categories_data : List CategoryRecord) : DictMap :=
  content_categories_data.foldl
    (fun acc content_category =>
      dictSet acc content_category.id (content_category.id, content_category.parent))
    []

/-- The state of a constructed `Dictionary`: its three named mappings. -/
structure Dictionary where
  device_dict : DictMap
  product_category_dict : DictMap
  content_category_dict : DictMap
deriving DecidableEq

/-- `self.dictionaries`: the fixed three-name mapping set up in `__init__`
(`dictionary.py`, lines 11-15). -/
def Dictionary.dictionaries (d : Dictionary) : List (String × DictMap) :=
  [("device_dict", d.device_dict),
   ("product_category_dict", d.product_category_dict),
   ("content_category_dict", d.content_category_dict)]

/-- `Dictionary.get_dictionary` (`dictionary.py`, lines 56-71): a `ValueError`
for a name outside the fixed set, the stored mapping otherwise. -/
def Dictionary.get_dictionary (d : Dictionary) (dictionary_name : String) :
    Except String DictMap :=
  match d.dictionaries.find? (fun p => p.1 == dictionary_name) with
  | some p => .ok p.2
  | none => .error (dictionary_name ++ " is not a valid dictionary name.")

/-- `Dictionary.__init__` (`dictionary.py`, lines 8-19), starting from the
parsed contents of the three JSON reference files. -/
def Dictionary.init (devs : List DeviceRecord) (prods conts : List CategoryRecord) :
    Dictionary :=
  { device_dict := load_devices devs
    product_category_dict := load_product_categories prods
    content_category_dict := load_content_categories conts }

/-! ## Transformer (`transform_ops.py`, `transform.py`) -/

/-- The one-time log message emitted for a missing dictionary key. -/
def missing_key_msg (x : Int) (dictionary_name : String) : String :=
  "Missing entry for key " ++ toString x ++ " in " ++ dictionary_name

/-- `AbstractTransformer.get_mapped_value` (`transform_ops.py`, lines 47-64):
returns the mapped pair (default `(0,0)`), the updated logged-keys set, and
the log messages emitted by this call. -/
def get_mapped_value (dictionary : Dictionary) (x : Int) (dictionary_name : String)
    (logged_keys : List Int) :
    Except String ((Int × Int) × List Int × List String) :=
  match dictionary.get_dictionary dictionary_name with
  | .error e => .error e
  | .ok mapping_dict =>
    if (dictFind? mapping_dict x).isNone && !(logged_keys.contains x) then
      .ok ((dictFind? mapping_dict x).getD (0, 0), x :: logged_keys,
        [missing_key_msg x dictionary_name])
    else
      .ok ((dictFind? mapping_dict x).getD (0, 0), logged_keys, [])

/-- `n` successive `get_mapped_value` calls for the same key against the same
(threaded) logged-keys set, collecting returned values and emitted logs. -/
def get_mapped_value_iter (dictionary : Dictionary) (x : Int) (dictionary_name : String) :
    Nat → List Int → Except String (List (Int × Int) × List Int × List String)
  | 0, logged_keys => .ok ([], logged_keys, [])
  | n + 1, logged_keys =>
    match get_mapped_value dictionary x dictionary_name logged_keys with
    | .error e => .error e
    | .ok (v, lk1, msgs) =>
      match get_mapped_value_iter dictionary x dictionary_name n lk1 with
      | .error e => .error e
      | .ok (vs, lk2, msgs1) => .ok (v :: vs, lk2, msgs ++ msgs1)

/-! ## Dataframes

A dask/pandas dataframe is modelled as an ordered list of column labels plus
a list of rows, each row an association list from label to (integer) value;
`date_time` cells hold the timestamp in seconds. -/

/-- One dataframe row. -/
abbrev Row := List (String × Int)

/-- `row[c]`: the cell under label `c` (0 when the label is absent; the
transformations below only read labels the hypotheses guarantee present). -/
def rowGet (r : Row) (c : String) : Int :=
  ((r.find? (fun p => p.1 == c)).map (fun p => p.2)).getD 0

/-- `row[c] = v`: overwrite when the label exists, append otherwise. -/
def rowSet (r : Row) (c : String) (v : Int) : Row :=
  if r.any (fun p => p.1 == c) then
    r.map (fun p => if p.1 == c then (c, v) else p)
  else r ++ [(c, v)]

/-- A logical table. -/
structure DataFrame where
  cols : List String
  rows : List Row
deriving DecidableEq

/-- The fixed column-rename table of `Transformer.transform_dask_df`
(`transform.py`, lines 29-46). -/
def rename_dict : List (String × String) :=
  [("idlanguage", "browser_language"),
   ("region_geoname_id", "region"),
   ("city_geoname_id", "city"),
   ("idos", "os"),
   ("idproxy", "proxy"),
   ("idadvertiser", "advertiser_id"),
   ("idcampaign", "campaign_id"),
   ("idvariation", "variation_id"),
   ("idadvertiser_ad_type", "campaign_type"),
   ("ad_type", "zone_type"),
   ("idpublisher", "publisher_id"),
   ("idsite", "site_id"),
   ("idzone", "zone_id"),
   ("sub", "sub_id"),
   ("idtraffic_type", "traffic_type"),
   ("goal", "conversion_status")]

/-- The new label of column `c` under `rename_dict` (unchanged when absent). -/
def renameOf (c : String) : String :=
  ((rename_dict.find? (fun p => p.1 == c)).map (fun p => p.2)).getD c

/-- `df.rename(columns=rename_dict)`. -/
def DataFrame.rename (df : DataFrame) : DataFrame :=
  { cols := df.cols.map renameOf
    rows := df.rows.map (fun r => r.map (fun p => (renameOf p.1, p.2))) }

/-- Column-label update of an assignment `df[dst] = ...`: an existing label
is overwritten in place, a new one is appended at the end. -/
def addCol (cols : List String) (dst : String) : List String :=
  if cols.contains dst then cols else cols ++ [dst]

/-- `df[dst] = df.apply(f)` for a pure per-row function (used for the
`date_time`-derived calendar columns). -/
def DataFrame.assign (df : DataFrame) (dst : String) (f : Row → Int) : DataFrame :=
  { cols := addCol df.cols dst
    rows := df.rows.map (fun r => rowSet r dst (f r)) }

/-- `df.drop(labels, axis=1)`: a `KeyError` when a label is absent. -/
def DataFrame.drop (df : DataFrame) (labels : List String) : Except String DataFrame :=
  if labels.all (fun c => df.cols.contains c) then
    .ok { cols := df.cols.filter (fun c => !(labels.contains c))
          rows := df.rows.map (fun r => r.filter (fun p => !(labels.contains p.1))) }
  else .error "KeyError: labels not found in axis"

/-- `df[dst] = df[src].map(lambda x: get_mapped_value(x, name, logged_keys)[pick])`
(`transform.py`, lines 50-67): applies the lookup to every row in order,
threading the logged-keys set and collecting log output. -/
def mapDictColumn (dictionary : Dictionary) (dictionary_name : String) (pick : Nat)
    (src dst : String) :
    List Row → List Int → Except String (List Row × List Int × List String)
  | [], logged_keys => .ok ([], logged_keys, [])
  | r :: rs, logged_keys =>
    match get_mapped_value dictionary (rowGet r src) dictionary_name logged_keys with
    | .error e => .error e
    | .ok (v, lk1, msgs) =>
      match mapDictColumn dictionary dictionary_name pick src dst rs lk1 with
      | .error e => .error e
      | .ok (rs1, lk2, msgs1) =>
        .ok (rowSet r dst (if pick == 0 then v.1 else v.2) :: rs1, lk2, msgs ++ msgs1)

/-- One dictionary-derived column assignment, at the dataframe level. -/
def assignDict (dictionary : Dictionary) (dictionary_name : String) (pick : Nat)
    (src dst : String) (df : DataFrame) (logged_keys : List Int) :
    Except String (DataFrame × List Int × List String) :=
  match mapDictColumn dictionary dictionary_name pick src dst df.rows logged_keys with
  | .error e => .error e
  | .ok (rows1, lk1, msgs) => .ok ({ cols := addCol df.cols dst, rows := rows1 }, lk1, msgs)

/-- The state of a `Transformer` (`transform.py`, lines 8-16): the injected
dictionary and the five logged-keys sets. -/
structure Transformer where
  dictionary : Dictionary
  logged_device_keys : List Int
  logged_browser_keys : List Int
  logged_product_category_keys : List Int
  logged_content_category_keys : List Int
  logged_ad_format_keys : List Int
deriving DecidableEq

/-- `Transformer.__init__`: all logged-keys sets start empty. -/
def Transformer.init (dictionary : Dictionary) : Transformer :=
  { dictionary := dictionary
    logged_device_keys := []
    logged_browser_keys := []
    logged_product_category_keys := []
    logged_content_category_keys := []
    logged_ad_format_keys := [] }

/-- `Transformer.transform_dask_df` (`transform.py`, lines 18-74): rename,
six dictionary-derived columns, drop of the three raw id columns, and the two
calendar columns from `date_time`.  Returns the transformed dataframe, the
updated transformer state and the emitted log messages. -/
def transform_dask_df (t : Transformer) (df0 : DataFrame) :
    Except String (DataFrame × Transformer × List String) := do
  let df1 := df0.rename
  let (df2, dk1, m1) ←
    assignDict t.dictionary "device_dict" 0 "iddevice" "device_type" df1
      t.logged_device_keys
  let (df3, dk2, m2) ←
    assignDict t.dictionary "device_dict" 1 "iddevice" "device_brand" df2 dk1
  let (df4, pk1, m3) ←
    assignDict t.dictionary "product_category_dict" 0 "idproduct_category"
      "ad_category" df3 t.logged_product_category_keys
  let (df5, pk2, m4) ←
    assignDict t.dictionary "product_category_dict" 1 "idproduct_category"
      "ad_sub_category" df4 pk1
  let (df6, ck1, m5) ←
    assignDict t.dictionary "content_category_dict" 0 "idcategory"
      "content_category" df5 t.logged_content_category_keys
  let (df7, ck2, m6) ←
    assignDict t.dictionary "content_category_dict" 1 "idcategory"
      "content_sub_category" df6 ck1
  let df8 ← df7.drop ["iddevice", "idproduct_category", "idcategory"]
  let df9 := df8.assign "hour_of_day" (fun r => rowGet r "date_time" / 3600 % 24)
  let df10 := df9.assign "day_of_week" (fun r => (rowGet r "date_time" / 86400 + 3) % 7)
  pure (df10,
    { t with
      logged_device_keys := dk2
      logged_product_category_keys := pk2
      logged_content_category_keys := ck2 },
    m1 ++ m2 ++ m3 ++ m4 ++ m5 ++ m6)

/-! ## Orchestrator (`processor.py`, `run_etl.py`) -/

/-- The error taxonomy raised by the draining loops: `QueryExecutionError`
(`db_ops.py`), `TransformError` (`etl_ops.py`), `StorageWriteError`
(`storage_ops.py`). -/
inductive EtlError where
  | QueryExecutionError (msg : String)
  | TransformError (msg : String)
  | StorageWriteError (msg : String)
deriving DecidableEq

/-- One submitted work unit: the future's task arguments (query text and the
`params` dict built from the window) plus the metadata dict stored next to
the future (`processor.py`, lines 50-59; `run_etl.py`, lines 45-55). -/
structure SubmittedTask where
  query : String
  params_start_time : Nat
  params_end_time : Nat
  params_down_sampling_percentage : Rat
  meta_interval_start_time : Nat
deriving DecidableEq

/-- `Processor._submit_futures` (`processor.py`, lines 40-60): one task per
hour interval, carrying the interval's bounds and the down-sampling rate; the
metadata records the interval's start. -/
def processor_submit_futures (query : String) (hour_intervals : List (Nat × Nat))
    (down_sampling_percentage : Rat) : List SubmittedTask :=
  hour_intervals.map (fun w =>
    { query := query
      params_start_time := w.1
      params_end_time := w.2
      params_down_sampling_percentage := down_sampling_percentage
      meta_interval_start_time := w.1 })

/-- `Processor._process_future_results` (`processor.py`, lines 62-85), the
drain over the completion order.  `getResult` is the future's outcome
(`future.result()`), `write` the storage backend (`AbstractStorage`); the
transformer is the concrete `Transformer`, threaded through the loop.
Returns the partition keys written, in completion order. -/
def processor_process_future_results
    (getResult : SubmittedTask → Except String DataFrame)
    (write : DataFrame → String → Except String Unit) :
    List SubmittedTask → Transformer → Except EtlError (List String × Transformer)
  | [], tr => .ok ([], tr)
  | t :: ts, tr =>
    match getResult t with
    | .error e =>
      .error (.QueryExecutionError ("An exception occurred for "
        ++ datetime_str t.meta_interval_start_time ++ ": " ++ e))
    | .ok df =>
      match transform_dask_df tr df with
      | .error e => .error (.TransformError ("Failed to transform dataset: " ++ e))
      | .ok (transformed_df, tr1, _) =>
        let file_path := strftime_Ymd_H t.meta_interval_start_time
        match write transformed_df file_path with
        | .error e => .error (.StorageWriteError ("Failed to write: " ++ e))
        | .ok _ =>
          match processor_process_future_results getResult write ts tr1 with
          | .error er => .error er
          | .ok (paths, tr2) => .ok (file_path :: paths, tr2)

/-- The module-level `args` namespace of `run_etl.py`. -/
structure RunEtlArgs where
  start_date : Option Nat
  end_date : Option Nat
  down_sampling_percentage : Rat
  max_workers : Nat
  storage_type : String

/-- The free function `submit_futures` of `run_etl.py` (lines 27-56).  Note
that line 46 rebinds `hour_intervals` from the module-global `args` before
the loop, so the parameter is never read. -/
def run_etl_submit_futures (args : RunEtlArgs) (query : String)
    (hour_intervals : List (Nat × Nat)) (down_sampling_percentage : Rat) :
    Except String (List SubmittedTask) :=
  match get_hour_intervals args.start_date args.end_date with
  | .error e => .error e
  | .ok intervals =>
    .ok (intervals.map (fun w =>
      { query := query
        params_start_time := w.1
        params_end_time := w.2
        params_down_sampling_percentage := down_sampling_percentage
        meta_interval_start_time := w.1 }))

/-- The free function `process_future_results` of `run_etl.py` (lines 59-81):
transform and write run inside one inner `try` whose failure is wrapped as
`StorageWriteError`, and the outer `except` wraps every failure — including
that one — as `QueryExecutionError` tagged with the interval start. -/
def run_etl_process_future_results
    (getResult : SubmittedTask → Except String DataFrame)
    (write : DataFrame → String → Except String Unit) :
    List SubmittedTask → Transformer → Except EtlError (List String × Transformer)
  | [], tr => .ok ([], tr)
  | t :: ts, tr =>
    match getResult t with
    | .error e =>
      .error (.QueryExecutionError ("An exception occurred for "
        ++ datetime_str t.meta_interval_start_time ++ ": " ++ e))
    | .ok df =>
      match transform_dask_df tr df with
      | .error e =>
        .error (.QueryExecutionError ("An exception occurred for "
          ++ datetime_str t.meta_interval_start_time ++ ": "
          ++ ("Failed to write: " ++ e)))
      | .ok (transformed_df, tr1, _) =>
        let file_path := strftime_Ymd_H t.meta_interval_start_time
        match write transformed_df file_path with
        | .error e =>
          .error (.QueryExecutionError ("An exception occurred for "
            ++ datetime_str t.meta_interval_start_time ++ ": "
            ++ ("Failed to write: " ++ e)))
        | .ok _ =>
          match run_etl_process_future_results getResult write ts tr1 with
          | .error er => .error er
          | .ok (paths, tr2) => .ok (file_path :: paths, tr2)

/-! ## Theorems: interval generator -/

/-- Closed form of the `get_hour_intervals` loop: window `i` spans
`[start + 3600*i, start + 3600*i + 3599]`. -/
theorem hourWindowsLoop_eq (n s : Nat) :
    hourWindowsLoop n s =
      (List.range n).map (fun i => (s + 3600 * i, s + 3600 * i + 3599)) := by
  induction n generalizing s with
  | zero => rfl
  | succ n ih =>
    rw [hourWindowsLoop, ih, List.range_succ_eq_map, List.map_cons, List.map_map]
    congr 1
    apply List.map_congr_left
    intro i _
    simp only [Function.comp_apply, Nat.succ_eq_add_one, Prod.mk.injEq]
    constructor <;> omega

/-- On valid input, `get_hour_intervals` succeeds with the loop's list. -/
theorem get_hour_intervals_ok (s e : Nat) (h : s < e) :
    get_hour_intervals (some s) (some e) =
      .ok ((List.range ((e - s + 3599) / 3600)).map
        (fun i => (s + 3600 * i, s + 3600 * i + 3599))) := by
  have hne : ¬ s ≥ e := by omega
  simp only [get_hour_intervals, if_neg hne, hourWindowsLoop_eq]
  have : (e - s) / 3600 + (if (e - s) % 3600 > 0 then 1 else 0) =
      (e - s + 3599) / 3600 := by
    split_ifs with h1 <;> omega
  rw [this]

/-- C3: for every `start < end`, `get_hour_intervals` returns
`ceil((end - start) / 3600)` windows; window `i` starts exactly at
`start + 3600 * i`; consecutive windows are contiguous and non-overlapping
(each window's start is one second after the previous window's end), and the
first window starts at `start`. -/
theorem C3_interval_count_and_starts (s e : Nat) (h : s < e) :
    ∃ l : List (Nat × Nat),
      get_hour_intervals (some s) (some e) = .ok l ∧
      l.length = (e - s + 3599) / 3600 ∧
      (∀ i : Nat, ∀ hi : i < l.length, (l.get ⟨i, hi⟩).1 = s + 3600 * i) ∧
      (∀ i : Nat, ∀ hi : i + 1 < l.length,
        (l.get ⟨i + 1, hi⟩).1 = (l.get ⟨i, Nat.lt_of_succ_lt hi⟩).2 + 1) ∧
      (∀ h0 : 0 < l.length, (l.get ⟨0, h0⟩).1 = s) := by
  refine ⟨_, get_hour_intervals_ok s e h, ?_, ?_, ?_, ?_⟩
  · simp
  · intro i hi
    simp at hi
    simp [hi]
  · intro i hi
    simp at hi
    simp [hi, Nat.lt_of_succ_lt hi]
    omega
  · intro h0
    simp at h0
    simp [h0]

/-- Witness for C3 at `start = 0`, `end = 5400`. -/
theorem C3_interval_count_and_starts_witness :
    (0 : Nat) < 5400 ∧
    (∃ l : List (Nat × Nat),
      get_hour_intervals (some 0) (some 5400) = .ok l ∧
      l.length = (5400 - 0 + 3599) / 3600 ∧
      (∀ i : Nat, ∀ hi : i < l.length, (l.get ⟨i, hi⟩).1 = 0 + 3600 * i) ∧
      (∀ i : Nat, ∀ hi : i + 1 < l.length,
        (l.get ⟨i + 1, hi⟩).1 = (l.get ⟨i, Nat.lt_of_succ_lt hi⟩).2 + 1) ∧
      (∀ h0 : 0 < l.length, (l.get ⟨0, h0⟩).1 = 0)) :=
  ⟨by decide, C3_interval_count_and_starts 0 5400 (by decide)⟩

/-- C4, counterexample: on `start = 0`, `end = 1800` the single produced
window ends at `3599`, not at `min (start + 3600 - 1) end = 1800` as the
claim's formula demands. -/
theorem C4_min_end_formula_counterexample :
    get_hour_intervals (some 0) (some 1800) = .ok [(0, 3599)] ∧
    (3599 : Nat) ≠ min (0 + 3600 * (0 + 1) - 1) 1800 := by
  constructor
  · rfl
  · decide

/-- C4, amended: window `i` ends exactly at `start + 3600 * (i + 1) - 1`,
never clipped; for every non-final window this coincides with
`min (start + 3600 * (i + 1) - 1, end)`, but the final window's end may
exceed `end` (by up to 3599 seconds). -/
theorem C4_window_end_amended (s e : Nat) (h : s < e) :
    ∃ l : List (Nat × Nat),
      get_hour_intervals (some s) (some e) = .ok l ∧
      (∀ i : Nat, ∀ hi : i < l.length,
        (l.get ⟨i, hi⟩).2 = s + 3600 * (i + 1) - 1) ∧
      (∀ i : Nat, ∀ hi : i + 1 < l.length,
        (l.get ⟨i, Nat.lt_of_succ_lt hi⟩).2 = min (s + 3600 * (i + 1) - 1) e) := by
  refine ⟨_, get_hour_intervals_ok s e h, ?_, ?_⟩
  · intro i hi
    simp at hi
    simp [hi]
    omega
  · intro i hi
    simp at hi
    simp [Nat.lt_of_succ_lt hi]
    omega

/-- Witness for the amended C4 at `start = 0`, `end = 1800`. -/
theorem C4_window_end_amended_witness :
    (0 : Nat) < 1800 ∧
    (∃ l : List (Nat × Nat),
      get_hour_intervals (some 0) (some 1800) = .ok l ∧
      (∀ i : Nat, ∀ hi : i < l.length,
        (l.get ⟨i, hi⟩).2 = 0 + 3600 * (i + 1) - 1) ∧
      (∀ i : Nat, ∀ hi : i + 1 < l.length,
        (l.get ⟨i, Nat.lt_of_succ_lt hi⟩).2 = min (0 + 3600 * (i + 1) - 1) 1800)) :=
  ⟨by decide, C4_window_end_amended 0 1800 (by decide)⟩

/-- C5: the concrete case of the test suite.  `get_hour_intervals` applied to
2022-12-31 23:30:00 and 2023-01-01 02:15:00 returns exactly the three windows
(23:30:00–00:29:59), (00:30:00–01:29:59), (01:30:00–02:29:59), the last
window ending after the requested end bound. -/
theorem C5_concrete_case :
    get_hour_intervals (some (toSecs 2022 12 31 23 30 0))
        (some (toSecs 2023 1 1 2 15 0)) =
      .ok [(toSecs 2022 12 31 23 30 0, toSecs 2023 1 1 0 29 59),
           (toSecs 2023 1 1 0 30 0, toSecs 2023 1 1 1 29 59),
           (toSecs 2023 1 1 1 30 0, toSecs 2023 1 1 2 29 59)] ∧
    toSecs 2023 1 1 2 15 0 < toSecs 2023 1 1 2 29 59 := by
  constructor
  · rfl
  · decide

/-- C6: `get_hour_intervals` fails (with the `ValueError` of the source,
returning no windows) exactly when either bound is absent or
`start ≥ end`; on all other inputs it returns `.ok`. -/
theorem C6_invalid_range_error (start_date end_date : Option Nat) :
    (∃ msg, get_hour_intervals start_date end_date = .error msg) ↔
      (start_date = none ∨ end_date = none ∨
        ∃ s e, start_date = some s ∧ end_date = some e ∧ e ≤ s) := by
  match start_date, end_date with
  | none, _ =>
    simp [get_hour_intervals]
  | some s, none =>
    simp [get_hour_intervals]
  | some s, some e =>
    constructor
    · rintro ⟨msg, hmsg⟩
      by_cases hse : s ≥ e
      · exact Or.inr (Or.inr ⟨s, e, rfl, rfl, hse⟩)
      · simp [get_hour_intervals, hse] at hmsg
    · rintro (h | h | ⟨s', e', hs, he, hle⟩)
      · simp at h
      · simp at h
      · cases hs
        cases he
        refine ⟨"start_date must be before end_date", ?_⟩
        simp [get_hour_intervals, hle]

/-! ## Theorems: dictionary resolver -/

/-- Once the key is in the logged-keys set, further lookups of a missing key
return the default, leave the set unchanged and log nothing. -/
theorem get_mapped_value_iter_logged (d : Dictionary) (x : Int) (name : String)
    (m : DictMap) (hm : d.get_dictionary name = .ok m)
    (hfind : dictFind? m x = none) (n : Nat) :
    ∀ lk : List Int, lk.contains x = true →
      get_mapped_value_iter d x name n lk =
        .ok (List.replicate n ((0, 0) : Int × Int), lk, []) := by
  induction n with
  | zero => intro lk _; rfl
  | succ n ih =>
    intro lk hlk
    simp only [get_mapped_value_iter, get_mapped_value, hm, hfind, hlk,
      Option.isNone_none, Bool.not_true, Bool.and_false, Bool.false_eq_true,
      if_false, Option.getD_none, ih lk hlk]
    simp [List.replicate_succ]

/-- C7: resolving a present key returns its mapped pair (logging nothing,
set unchanged); resolving an absent key returns `(0,0)`, and over any number
of repeated lookups of the same absent key against the same threaded
logged-keys set the miss is logged exactly once — on the first lookup, which
also adds the key to the set. -/
theorem C7_resolve_miss_logging (d : Dictionary) (x : Int) (name : String)
    (logged_keys : List Int) (m : DictMap)
    (hm : d.get_dictionary name = .ok m) :
    (∀ v, dictFind? m x = some v →
      get_mapped_value d x name logged_keys = .ok (v, logged_keys, [])) ∧
    (dictFind? m x = none →
      (logged_keys.contains x = true →
        get_mapped_value d x name logged_keys = .ok ((0, 0), logged_keys, [])) ∧
      (logged_keys.contains x = false → ∀ n : Nat,
        get_mapped_value_iter d x name (n + 1) logged_keys =
          .ok (List.replicate (n + 1) ((0, 0) : Int × Int), x :: logged_keys,
            [missing_key_msg x name]))) := by
  refine ⟨?_, fun hfind => ⟨?_, ?_⟩⟩
  · intro v hv
    simp [get_mapped_value, hm, hv]
  · intro hlk
    have hmem : x ∈ logged_keys := by simpa using hlk
    simp [get_mapped_value, hm, hfind, hmem]
  · intro hlk n
    have hmem : x ∉ logged_keys := by simpa using hlk
    have hstep : get_mapped_value d x name logged_keys =
        .ok ((0, 0), x :: logged_keys, [missing_key_msg x name]) := by
      simp [get_mapped_value, hm, hfind, hmem]
    have hrest := get_mapped_value_iter_logged d x name m hm hfind n
      (x :: logged_keys) (by simp)
    simp only [get_mapped_value_iter, hstep, hrest]
    simp [List.replicate_succ]

/-- Witness for C7 on a one-entry device dictionary and the absent key 9. -/
theorem C7_resolve_miss_logging_witness :
    (Dictionary.mk [((5 : Int), ((7 : Int), (2 : Int)))] [] []).get_dictionary
        "device_dict" = .ok [(5, (7, 2))] ∧
    ((∀ v, dictFind? [((5 : Int), ((7 : Int), (2 : Int)))] 9 = some v →
      get_mapped_value (Dictionary.mk [(5, (7, 2))] [] []) 9 "device_dict" []
        = .ok (v, [], [])) ∧
    (dictFind? [((5 : Int), ((7 : Int), (2 : Int)))] 9 = none →
      (List.contains ([] : List Int) 9 = true →
        get_mapped_value (Dictionary.mk [(5, (7, 2))] [] []) 9 "device_dict" []
          = .ok ((0, 0), [], [])) ∧
      (List.contains ([] : List Int) 9 = false → ∀ n : Nat,
        get_mapped_value_iter (Dictionary.mk [(5, (7, 2))] [] []) 9 "device_dict"
            (n + 1) [] =
          .ok (List.replicate (n + 1) ((0, 0) : Int × Int), [9],
            [missing_key_msg 9 "device_dict"])))) :=
  ⟨rfl, C7_resolve_miss_logging (Dictionary.mk [(5, (7, 2))] [] []) 9 "device_dict"
    [] [(5, (7, 2))] rfl⟩

/-- C9: `get_dictionary` on a constructed `Dictionary` fails exactly when the
name is not one of the three fixed dictionary names, and on each of those
three names it returns the corresponding loaded mapping without raising. -/
theorem C9_get_dictionary_fixed_names (devs : List DeviceRecord)
    (prods conts : List CategoryRecord) (name : String) :
    ((∃ e, (Dictionary.init devs prods conts).get_dictionary name = .error e) ↔
      ¬ (name = "device_dict" ∨ name = "product_category_dict" ∨
         name = "content_category_dict")) ∧
    (Dictionary.init devs prods conts).get_dictionary "device_dict"
      = .ok (load_devices devs) ∧
    (Dictionary.init devs prods conts).get_dictionary "product_category_dict"
      = .ok (load_product_categories prods) ∧
    (Dictionary.init devs prods conts).get_dictionary "content_category_dict"
      = .ok (load_content_categories conts) := by
  refine ⟨?_, rfl, rfl, rfl⟩
  by_cases h1 : name = "device_dict"
  · subst h1
    simp [Dictionary.get_dictionary, Dictionary.dictionaries]
  · by_cases h2 : name = "product_category_dict"
    · subst h2
      simp [Dictionary.get_dictionary, Dictionary.dictionaries]
    · by_cases h3 : name = "content_category_dict"
      · subst h3
        simp [Dictionary.get_dictionary, Dictionary.dictionaries]
      · have hne1 : ("device_dict" == name) = false := by
          simp [beq_iff_eq]
          exact fun hcontra => h1 hcontra.symm
        have hne2 : ("product_category_dict" == name) = false := by
          simp [beq_iff_eq]
          exact fun hcontra => h2 hcontra.symm
        have hne3 : ("content_category_dict" == name) = false := by
          simp [beq_iff_eq]
          exact fun hcontra => h3 hcontra.symm
        simp [Dictionary.get_dictionary, Dictionary.dictionaries, List.find?,
          hne1, hne2, hne3, h1, h2, h3]

/-! ## Theorems: the run_etl submit variant (C10) -/

/-- C10: the `run_etl.py` `submit_futures` never reads its `hour_intervals`
parameter — two calls differing only in that argument build identical work
units and metadata, because the intervals are recomputed inside the function
from the module-global `args.start_date` / `args.end_date`. -/
theorem C10_submit_futures_ignores_param (args : RunEtlArgs) (query : String)
    (hour_intervals1 hour_intervals2 : List (Nat × Nat))
    (down_sampling_percentage : Rat) :
    run_etl_submit_futures args query hour_intervals1 down_sampling_percentage =
      run_etl_submit_futures args query hour_intervals2 down_sampling_percentage :=
  rfl

/-! ## Theorems: row transformer (C8) -/

/-- With a valid dictionary name, `get_mapped_value` never raises. -/
theorem get_mapped_value_ok (d : Dictionary) (x : Int) (name : String)
    (lk : List Int) (m : DictMap) (hm : d.get_dictionary name = .ok m) :
    ∃ v lk1 msgs, get_mapped_value d x name lk = .ok (v, lk1, msgs) := by
  simp only [get_mapped_value, hm]
  split
  · exact ⟨_, _, _, rfl⟩
  · exact ⟨_, _, _, rfl⟩

/-- With a valid dictionary name, the per-column lookup map never raises and
preserves the number of rows. -/
theorem mapDictColumn_ok (d : Dictionary) (name : String) (m : DictMap)
    (hm : d.get_dictionary name = .ok m) (pick : Nat) (src dst : String) :
    ∀ (rows : List Row) (lk : List Int),
      ∃ rows1 lk1 msgs,
        mapDictColumn d name pick src dst rows lk = .ok (rows1, lk1, msgs) ∧
        rows1.length = rows.length := by
  intro rows
  induction rows with
  | nil => exact fun lk => ⟨[], lk, [], rfl, rfl⟩
  | cons r rs ih =>
    intro lk
    obtain ⟨v, lk1, msgs, hv⟩ := get_mapped_value_ok d (rowGet r src) name lk m hm
    obtain ⟨rs1, lk2, msgs1, hrec, hlen⟩ := ih lk1
    refine ⟨rowSet r dst (if pick == 0 then v.1 else v.2) :: rs1, lk2,
      msgs ++ msgs1, ?_, ?_⟩
    · simp only [mapDictColumn, hv, hrec]
    · simp [hlen]

/-- With a valid dictionary name, one derived-column assignment never raises,
appends-or-overwrites exactly its destination label, and preserves the number
of rows. -/
theorem assignDict_ok (d : Dictionary) (name : String) (m : DictMap)
    (hm : d.get_dictionary name = .ok m) (pick : Nat) (src dst : String)
    (df : DataFrame) (lk : List Int) :
    ∃ df1 lk1 msgs, assignDict d name pick src dst df lk = .ok (df1, lk1, msgs) ∧
      df1.cols = addCol df.cols dst ∧ df1.rows.length = df.rows.length := by
  obtain ⟨rows1, lk1, msgs, hmap, hlen⟩ := mapDictColumn_ok d name m hm pick src dst
    df.rows lk
  exact ⟨⟨addCol df.cols dst, rows1⟩, lk1, msgs, by simp only [assignDict, hmap],
    rfl, hlen⟩

/-- `drop` succeeds when every dropped label is present, filtering it from the
column list and from every row. -/
theorem DataFrame.drop_ok (df : DataFrame) (labels : List String)
    (h : labels.all (fun c => df.cols.contains c) = true) :
    df.drop labels = .ok
      { cols := df.cols.filter (fun c => !(labels.contains c))
        rows := df.rows.map (fun r => r.filter (fun p => !(labels.contains p.1))) } := by
  simp only [DataFrame.drop, h, if_true]

/-- A fresh label is appended at the end of the column list. -/
theorem addCol_of_not_mem {l : List String} {c : String} (h : ¬ c ∈ l) :
    addCol l c = l ++ [c] := by
  simp [addCol, h]


/-- Membership is preserved by a column assignment's label update. -/
theorem mem_addCol_of_mem {l : List String} {c a : String} (h : a ∈ l) :
    a ∈ addCol l c := by
  unfold addCol
  split
  · exact h
  · exact List.mem_append_left _ h

/-- A label distinct from the assigned one stays absent. -/
theorem not_mem_addCol {l : List String} {c a : String} (hl : a ∉ l) (hc : a ≠ c) :
    a ∉ addCol l c := by
  unfold addCol
  split
  · exact hl
  · simp [hl, hc]

/-- C8: on an input table containing the expected source columns (and not
already containing a derived-column name), `transform_dask_df` renames all 16
source columns to their destinations, drops the three raw id columns, adds
exactly the 8 derived columns at the end, and preserves the row count. -/
theorem C8_transform_shape (t : Transformer) (df : DataFrame)
    (h1 : "iddevice" ∈ df.cols) (h2 : "idproduct_category" ∈ df.cols)
    (h3 : "idcategory" ∈ df.cols)
    (h4 : ∀ c ∈ ["device_type", "device_brand", "ad_category", "ad_sub_category",
      "content_category", "content_sub_category", "hour_of_day", "day_of_week"],
      c ∉ df.cols.map renameOf) :
    ∃ df1 t1 logs, transform_dask_df t df = .ok (df1, t1, logs) ∧
      df1.cols = (df.cols.map renameOf).filter
          (fun c => !(["iddevice", "idproduct_category", "idcategory"].contains c))
        ++ ["device_type", "device_brand", "ad_category", "ad_sub_category",
            "content_category", "content_sub_category", "hour_of_day", "day_of_week"] ∧
      df1.rows.length = df.rows.length ∧
      (∀ p ∈ rename_dict, p.1 ∈ df.cols → p.2 ∈ df1.cols) ∧
      "iddevice" ∉ df1.cols ∧ "idproduct_category" ∉ df1.cols ∧
      "idcategory" ∉ df1.cols := by
  have hdev : t.dictionary.get_dictionary "device_dict"
      = .ok t.dictionary.device_dict := rfl
  have hprod : t.dictionary.get_dictionary "product_category_dict"
      = .ok t.dictionary.product_category_dict := rfl
  have hcont : t.dictionary.get_dictionary "content_category_dict"
      = .ok t.dictionary.content_category_dict := rfl
  obtain ⟨dfA, lkA, mA, hA, hcolsA, hlenA⟩ := assignDict_ok t.dictionary "device_dict"
    t.dictionary.device_dict hdev 0 "iddevice" "device_type" df.rename
    t.logged_device_keys
  obtain ⟨dfB, lkB, mB, hB, hcolsB, hlenB⟩ := assignDict_ok t.dictionary "device_dict"
    t.dictionary.device_dict hdev 1 "iddevice" "device_brand" dfA lkA
  obtain ⟨dfC, lkC, mC, hC, hcolsC, hlenC⟩ := assignDict_ok t.dictionary
    "product_category_dict" t.dictionary.product_category_dict hprod 0
    "idproduct_category" "ad_category" dfB t.logged_product_category_keys
  obtain ⟨dfD, lkD, mD, hD, hcolsD, hlenD⟩ := assignDict_ok t.dictionary
    "product_category_dict" t.dictionary.product_category_dict hprod 1
    "idproduct_category" "ad_sub_category" dfC lkC
  obtain ⟨dfE, lkE, mE, hE, hcolsE, hlenE⟩ := assignDict_ok t.dictionary
    "content_category_dict" t.dictionary.content_category_dict hcont 0
    "idcategory" "content_category" dfD t.logged_content_category_keys
  obtain ⟨dfF, lkF, mF, hF, hcolsF, hlenF⟩ := assignDict_ok t.dictionary
    "content_category_dict" t.dictionary.content_category_dict hcont 1
    "idcategory" "content_sub_category" dfE lkE
  have hren : df.rename.cols = df.cols.map renameOf := rfl
  have hnotmem : ∀ (c : String) (l2 : List String), c ∉ df.cols.map renameOf →
      c ∉ l2 → c ∉ df.cols.map renameOf ++ l2 := by
    intro c l2 hc hl2
    simp only [List.mem_append]
    exact fun hcontra => hcontra.elim hc hl2
  have eA : dfA.cols = df.cols.map renameOf ++ ["device_type"] := by
    rw [hcolsA, hren, addCol_of_not_mem (h4 _ (by simp))]
  have eB : dfB.cols = df.cols.map renameOf
      ++ ["device_type", "device_brand"] := by
    rw [hcolsB, eA, addCol_of_not_mem
      (hnotmem _ _ (h4 _ (by simp)) (by decide))]
    simp
  have eC : dfC.cols = df.cols.map renameOf
      ++ ["device_type", "device_brand", "ad_category"] := by
    rw [hcolsC, eB, addCol_of_not_mem
      (hnotmem _ _ (h4 _ (by simp)) (by decide))]
    simp
  have eD : dfD.cols = df.cols.map renameOf
      ++ ["device_type", "device_brand", "ad_category", "ad_sub_category"] := by
    rw [hcolsD, eC, addCol_of_not_mem
      (hnotmem _ _ (h4 _ (by simp)) (by decide))]
    simp
  have eE : dfE.cols = df.cols.map renameOf
      ++ ["device_type", "device_brand", "ad_category", "ad_sub_category",
          "content_category"] := by
    rw [hcolsE, eD, addCol_of_not_mem
      (hnotmem _ _ (h4 _ (by simp)) (by decide))]
    simp
  have eF : dfF.cols = df.cols.map renameOf
      ++ ["device_type", "device_brand", "ad_category", "ad_sub_category",
          "content_category", "content_sub_category"] := by
    rw [hcolsF, eE, addCol_of_not_mem
      (hnotmem _ _ (h4 _ (by simp)) (by decide))]
    simp
  have hidd : "iddevice" ∈ dfF.cols := by
    rw [eF]
    exact List.mem_append_left _ (List.mem_map.mpr ⟨"iddevice", h1, by decide⟩)
  have hidp : "idproduct_category" ∈ dfF.cols := by
    rw [eF]
    exact List.mem_append_left _
      (List.mem_map.mpr ⟨"idproduct_category", h2, by decide⟩)
  have hidc : "idcategory" ∈ dfF.cols := by
    rw [eF]
    exact List.mem_append_left _ (List.mem_map.mpr ⟨"idcategory", h3, by decide⟩)
  have hall : (["iddevice", "idproduct_category", "idcategory"].all
      (fun c => dfF.cols.contains c)) = true := by
    simp [hidd, hidp, hidc]
  have hdrop := DataFrame.drop_ok dfF ["iddevice", "idproduct_category", "idcategory"]
    hall
  have htr : transform_dask_df t df = .ok
      ((DataFrame.mk
          (dfF.cols.filter (fun c =>
            !(["iddevice", "idproduct_category", "idcategory"].contains c)))
          (dfF.rows.map (fun r => r.filter (fun p =>
            !(["iddevice", "idproduct_category", "idcategory"].contains p.1))))
        |>.assign "hour_of_day" (fun r => rowGet r "date_time" / 3600 % 24)
        |>.assign "day_of_week" (fun r => (rowGet r "date_time" / 86400 + 3) % 7),
        { t with
          logged_device_keys := lkB
          logged_product_category_keys := lkD
          logged_content_category_keys := lkF },
        mA ++ mB ++ mC ++ mD ++ mE ++ mF)) := by
    simp only [transform_dask_df, hA, hB, hC, hD, hE, hF, hdrop, bind, Except.bind,
      pure, Except.pure]
  have hfilter6 : (["device_type", "device_brand", "ad_category", "ad_sub_category",
      "content_category", "content_sub_category"] : List String).filter (fun c =>
        !(["iddevice", "idproduct_category", "idcategory"].contains c))
      = ["device_type", "device_brand", "ad_category", "ad_sub_category",
         "content_category", "content_sub_category"] := by decide
  have e8 : (dfF.cols.filter (fun c =>
      !(["iddevice", "idproduct_category", "idcategory"].contains c)))
      = (df.cols.map renameOf).filter (fun c =>
          !(["iddevice", "idproduct_category", "idcategory"].contains c))
        ++ ["device_type", "device_brand", "ad_category", "ad_sub_category",
            "content_category", "content_sub_category"] := by
    rw [eF, List.filter_append, hfilter6]
  have hsubf : ∀ c : String, c ∉ df.cols.map renameOf →
      c ∉ (df.cols.map renameOf).filter (fun c =>
        !(["iddevice", "idproduct_category", "idcategory"].contains c)) := by
    intro c hc hcontra
    exact hc (List.mem_of_mem_filter hcontra)
  have hno7 : "hour_of_day" ∉ (df.cols.map renameOf).filter (fun c =>
      !(["iddevice", "idproduct_category", "idcategory"].contains c))
      ++ ["device_type", "device_brand", "ad_category", "ad_sub_category",
          "content_category", "content_sub_category"] := by
    simp only [List.mem_append]
    exact fun hcontra => hcontra.elim (hsubf _ (h4 _ (by simp))) (by decide)
  have hno8 : "day_of_week" ∉ (df.cols.map renameOf).filter (fun c =>
      !(["iddevice", "idproduct_category", "idcategory"].contains c))
      ++ ["device_type", "device_brand", "ad_category", "ad_sub_category",
          "content_category", "content_sub_category", "hour_of_day"] := by
    simp only [List.mem_append]
    exact fun hcontra => hcontra.elim (hsubf _ (h4 _ (by simp))) (by decide)
  refine ⟨_, _, _, htr, ?_, ?_, ?_, ?_, ?_, ?_⟩
  · show addCol (addCol _ "hour_of_day") "day_of_week" = _
    rw [e8, addCol_of_not_mem hno7]
    rw [show (df.cols.map renameOf).filter (fun c =>
        !(["iddevice", "idproduct_category", "idcategory"].contains c))
        ++ ["device_type", "device_brand", "ad_category", "ad_sub_category",
            "content_category", "content_sub_category"] ++ ["hour_of_day"]
        = (df.cols.map renameOf).filter (fun c =>
            !(["iddevice", "idproduct_category", "idcategory"].contains c))
          ++ ["device_type", "device_brand", "ad_category", "ad_sub_category",
              "content_category", "content_sub_category", "hour_of_day"] by simp]
    rw [addCol_of_not_mem hno8]
    simp
  · show (_ : List Row).length = _
    simp only [DataFrame.assign, List.length_map]
    rw [hlenF, hlenE, hlenD, hlenC, hlenB, hlenA]
    simp [DataFrame.rename]
  · intro p hp hmem
    have hfact : ∀ p ∈ rename_dict, renameOf p.1 = p.2 ∧
        ((["iddevice", "idproduct_category", "idcategory"] : List String).contains
          p.2) = false := by decide
    show p.2 ∈ addCol (addCol _ "hour_of_day") "day_of_week"
    refine mem_addCol_of_mem (mem_addCol_of_mem ?_)
    rw [e8]
    refine List.mem_append_left _ (List.mem_filter.mpr ⟨?_, ?_⟩)
    · exact List.mem_map.mpr ⟨p.1, hmem, (hfact p hp).1⟩
    · have hc := (hfact p hp).2
      simp at hc ⊢
      exact hc
  · show "iddevice" ∉ addCol (addCol _ "hour_of_day") "day_of_week"
    refine not_mem_addCol (not_mem_addCol ?_ (by decide)) (by decide)
    rw [e8]
    simp only [List.mem_append, List.mem_filter]
    rintro (⟨-, hP⟩ | hsix)
    · exact absurd hP (by decide)
    · exact absurd hsix (by decide)
  · show "idproduct_category" ∉ addCol (addCol _ "hour_of_day") "day_of_week"
    refine not_mem_addCol (not_mem_addCol ?_ (by decide)) (by decide)
    rw [e8]
    simp only [List.mem_append, List.mem_filter]
    rintro (⟨-, hP⟩ | hsix)
    · exact absurd hP (by decide)
    · exact absurd hsix (by decide)
  · show "idcategory" ∉ addCol (addCol _ "hour_of_day") "day_of_week"
    refine not_mem_addCol (not_mem_addCol ?_ (by decide)) (by decide)
    rw [e8]
    simp only [List.mem_append, List.mem_filter]
    rintro (⟨-, hP⟩ | hsix)
    · exact absurd hP (by decide)
    · exact absurd hsix (by decide)

/-- Witness for C8 on a one-row table holding exactly the expected source
columns. -/
theorem C8_transform_shape_witness :
    ("iddevice" ∈ (DataFrame.mk ["date_time", "idlanguage", "region_geoname_id",
        "city_geoname_id", "idos", "idproxy", "idadvertiser", "idcampaign",
        "idvariation", "idadvertiser_ad_type", "ad_type", "idpublisher", "idsite",
        "idzone", "sub", "idtraffic_type", "goal", "iddevice",
        "idproduct_category", "idcategory"] [[]]).cols) ∧
    ("idproduct_category" ∈ (DataFrame.mk ["date_time", "idlanguage",
        "region_geoname_id", "city_geoname_id", "idos", "idproxy", "idadvertiser",
        "idcampaign", "idvariation", "idadvertiser_ad_type", "ad_type",
        "idpublisher", "idsite", "idzone", "sub", "idtraffic_type", "goal",
        "iddevice", "idproduct_category", "idcategory"] [[]]).cols) ∧
    ("idcategory" ∈ (DataFrame.mk ["date_time", "idlanguage", "region_geoname_id",
        "city_geoname_id", "idos", "idproxy", "idadvertiser", "idcampaign",
        "idvariation", "idadvertiser_ad_type", "ad_type", "idpublisher", "idsite",
        "idzone", "sub", "idtraffic_type", "goal", "iddevice",
        "idproduct_category", "idcategory"] [[]]).cols) ∧
    (∀ c ∈ ["device_type", "device_brand", "ad_category", "ad_sub_category",
      "content_category", "content_sub_category", "hour_of_day", "day_of_week"],
      c ∉ (DataFrame.mk ["date_time", "idlanguage", "region_geoname_id",
        "city_geoname_id", "idos", "idproxy", "idadvertiser", "idcampaign",
        "idvariation", "idadvertiser_ad_type", "ad_type", "idpublisher", "idsite",
        "idzone", "sub", "idtraffic_type", "goal", "iddevice",
        "idproduct_category", "idcategory"] [[]]).cols.map renameOf) ∧
    (∃ df1 t1 logs,
      transform_dask_df (Transformer.init (Dictionary.mk [] [] []))
          (DataFrame.mk ["date_time", "idlanguage", "region_geoname_id",
            "city_geoname_id", "idos", "idproxy", "idadvertiser", "idcampaign",
            "idvariation", "idadvertiser_ad_type", "ad_type", "idpublisher",
            "idsite", "idzone", "sub", "idtraffic_type", "goal", "iddevice",
            "idproduct_category", "idcategory"] [[]]) = .ok (df1, t1, logs) ∧
      df1.cols = ((DataFrame.mk ["date_time", "idlanguage", "region_geoname_id",
          "city_geoname_id", "idos", "idproxy", "idadvertiser", "idcampaign",
          "idvariation", "idadvertiser_ad_type", "ad_type", "idpublisher",
          "idsite", "idzone", "sub", "idtraffic_type", "goal", "iddevice",
          "idproduct_category", "idcategory"] [[]]).cols.map renameOf).filter
          (fun c => !(["iddevice", "idproduct_category", "idcategory"].contains c))
        ++ ["device_type", "device_brand", "ad_category", "ad_sub_category",
            "content_category", "content_sub_category", "hour_of_day",
            "day_of_week"] ∧
      df1.rows.length = (DataFrame.mk ["date_time", "idlanguage",
          "region_geoname_id", "city_geoname_id", "idos", "idproxy",
          "idadvertiser", "idcampaign", "idvariation", "idadvertiser_ad_type",
          "ad_type", "idpublisher", "idsite", "idzone", "sub", "idtraffic_type",
          "goal", "iddevice", "idproduct_category", "idcategory"] [[]]).rows.length ∧
      (∀ p ∈ rename_dict, p.1 ∈ (DataFrame.mk ["date_time", "idlanguage",
          "region_geoname_id", "city_geoname_id", "idos", "idproxy",
          "idadvertiser", "idcampaign", "idvariation", "idadvertiser_ad_type",
          "ad_type", "idpublisher", "idsite", "idzone", "sub", "idtraffic_type",
          "goal", "iddevice", "idproduct_category", "idcategory"] [[]]).cols →
        p.2 ∈ df1.cols) ∧
      "iddevice" ∉ df1.cols ∧ "idproduct_category" ∉ df1.cols ∧
      "idcategory" ∉ df1.cols) :=
  ⟨by decide, by decide, by decide, by decide,
    C8_transform_shape (Transformer.init (Dictionary.mk [] [] []))
      (DataFrame.mk ["date_time", "idlanguage", "region_geoname_id",
        "city_geoname_id", "idos", "idproxy", "idadvertiser", "idcampaign",
        "idvariation", "idadvertiser_ad_type", "ad_type", "idpublisher", "idsite",
        "idzone", "sub", "idtraffic_type", "goal", "iddevice",
        "idproduct_category", "idcategory"] [[]])
      (by decide) (by decide) (by decide) (by decide)⟩

/-! ## Theorems: calendar round trip -/

set_option maxHeartbeats 1000000 in
/-- `ymd2ord` inverts the body of `ord2ymd`: re-encoding the produced civil
date recovers the mixed-radix value, and month and day are in range. -/
theorem ord2ymd_core_spec (q400 q100 q4 q1 r4 y m d : Nat)
    (hb100 : q100 ≤ 4) (hb4 : q4 ≤ 24) (hb1 : q1 ≤ 4) (hbr4 : r4 ≤ 364)
    (hc1 : q1 = 4 → r4 = 0)
    (hc2 : q100 = 4 → q4 = 0 ∧ q1 = 0 ∧ r4 = 0)
    (hc3 : q4 = 24 → q1 ≤ 3)
    (he : ord2ymd_core q400 q100 q4 q1 r4 = (y, m, d)) :
    ymd2ord y m d = 146097 * q400 + 36524 * q100 + 1461 * q4 + 365 * q1 + r4 + 1 ∧
    1 ≤ m ∧ m ≤ 12 ∧ 1 ≤ d ∧ d ≤ 31 := by
  simp only [ord2ymd_core] at he
  by_cases h4 : q1 = 4 ∨ q100 = 4
  · rw [if_pos h4] at he
    simp only [Prod.mk.injEq] at he
    obtain ⟨hy, hmm2, hd⟩ := he
    subst hy; subst hmm2; subst hd
    simp only [ymd2ord, days_before_year, is_leap, Nat.add_sub_cancel,
      show days_before_month_tbl 12 = 334 from rfl]
    rcases h4 with h4 | h4
    · have e1 : (q400 * 400 + q100 * 100 + q4 * 4 + q1 - 1) / 4
          = q400 * 100 + q100 * 25 + q4 := by omega
      have e2 : (q400 * 400 + q100 * 100 + q4 * 4 + q1 - 1) / 100
          = q400 * 4 + q100 := by omega
      have e3 : (q400 * 400 + q100 * 100 + q4 * 4 + q1 - 1) / 400 = q400 := by
        omega
      have e4 : (q400 * 400 + q100 * 100 + q4 * 4 + q1) % 4 = q1 % 4 := by omega
      have e5 : (q400 * 400 + q100 * 100 + q4 * 4 + q1) % 100
          = (q4 * 4 + q1) % 100 := by omega
      have e6 : (q400 * 400 + q100 * 100 + q4 * 4 + q1) % 400
          = (q100 * 100 + q4 * 4 + q1) % 400 := by omega
      split_ifs <;> omega
    · obtain ⟨hz4, hz1, hzr⟩ := hc2 h4
      subst hz4; subst hz1; subst hzr; subst h4
      have e1 : (q400 * 400 + 4 * 100 + 0 * 4 + 0 - 1) / 4
          = q400 * 100 + 99 := by omega
      have e2 : (q400 * 400 + 4 * 100 + 0 * 4 + 0 - 1) / 100
          = q400 * 4 + 3 := by omega
      have e3 : (q400 * 400 + 4 * 100 + 0 * 4 + 0 - 1) / 400 = q400 := by omega
      have e4 : (q400 * 400 + 4 * 100 + 0 * 4 + 0) % 4 = 0 := by omega
      have e5 : (q400 * 400 + 4 * 100 + 0 * 4 + 0) % 100 = 0 := by omega
      have e6 : (q400 * 400 + 4 * 100 + 0 * 4 + 0) % 400 = 0 := by omega
      split_ifs <;> omega
  · rw [if_neg h4] at he
    have hq1b : q1 ≤ 3 := by omega
    have hq100b : q100 ≤ 3 := by omega
    have e1 : (q400 * 400 + q100 * 100 + q4 * 4 + q1) / 4
        = q400 * 100 + q100 * 25 + q4 := by omega
    have e2 : (q400 * 400 + q100 * 100 + q4 * 4 + q1) / 100
        = q400 * 4 + q100 := by omega
    have e3 : (q400 * 400 + q100 * 100 + q4 * 4 + q1) / 400 = q400 := by omega
    have e4 : (q400 * 400 + q100 * 100 + q4 * 4 + q1 + 1) % 4 = (q1 + 1) % 4 := by
      omega
    have e5 : (q400 * 400 + q100 * 100 + q4 * 4 + q1 + 1) % 100
        = (q4 * 4 + q1 + 1) % 100 := by omega
    have e6 : (q400 * 400 + q100 * 100 + q4 * 4 + q1 + 1) % 400
        = (q100 * 100 + q4 * 4 + q1 + 1) % 400 := by omega
    have hLiff : is_leap (q400 * 400 + q100 * 100 + q4 * 4 + q1 + 1) ↔
        (q1 = 3 ∧ (q4 ≠ 24 ∨ q100 = 3)) := by
      simp only [is_leap, e4, e5, e6]
      omega
    have hm12 : (r4 + 50) / 32 = 1 ∨ (r4 + 50) / 32 = 2 ∨ (r4 + 50) / 32 = 3 ∨
        (r4 + 50) / 32 = 4 ∨ (r4 + 50) / 32 = 5 ∨ (r4 + 50) / 32 = 6 ∨
        (r4 + 50) / 32 = 7 ∨ (r4 + 50) / 32 = 8 ∨ (r4 + 50) / 32 = 9 ∨
        (r4 + 50) / 32 = 10 ∨ (r4 + 50) / 32 = 11 ∨ (r4 + 50) / 32 = 12 := by
      omega
    by_cases hL : q1 = 3 ∧ (q4 ≠ 24 ∨ q100 = 3)
    · have hLY : is_leap (q400 * 400 + q100 * 100 + q4 * 4 + q1 + 1) :=
        hLiff.mpr hL
      simp only [if_pos hL] at he
      rcases hm12 with hm|hm|hm|hm|hm|hm|hm|hm|hm|hm|hm|hm
      · rw [hm] at he
        rw [show days_before_month_tbl 1 = 0 from rfl,
          show days_in_month_tbl (1 - 1) = 0 from rfl] at he
        simp only [(show ¬((2:Nat) < 1) from by decide), (show ¬((1:Nat) - 1 = 2) from by decide), if_true, if_false, ite_true, ite_false,
          eq_self_iff_true] at he
        split_ifs at he with hadj <;>
          (simp only [Prod.mk.injEq] at he
           obtain ⟨hy, hmm2, hd⟩ := he
           subst hy; subst hmm2; subst hd
           simp only [ymd2ord, days_before_year, Nat.add_sub_cancel, hLY,
             show days_before_month_tbl 1 = 0 from rfl,
             show days_before_month_tbl (1 - 1) = 335 from rfl,
             (show ¬((2:Nat) < 1) from by decide), (show ¬((2:Nat) < 1 - 1) from by decide), and_true, and_false, true_and, false_and,
             if_true, if_false, ite_true, ite_false]
           omega)
      · rw [hm] at he
        rw [show days_before_month_tbl 2 = 31 from rfl,
          show days_in_month_tbl (2 - 1) = 31 from rfl] at he
        simp only [(show ¬((2:Nat) < 2) from by decide), (show ¬((2:Nat) - 1 = 2) from by decide), if_true, if_false, ite_true, ite_false,
          eq_self_iff_true] at he
        split_ifs at he with hadj <;>
          (simp only [Prod.mk.injEq] at he
           obtain ⟨hy, hmm2, hd⟩ := he
           subst hy; subst hmm2; subst hd
           simp only [ymd2ord, days_before_year, Nat.add_sub_cancel, hLY,
             show days_before_month_tbl 2 = 31 from rfl,
             show days_before_month_tbl (2 - 1) = 0 from rfl,
             (show ¬((2:Nat) < 2) from by decide), (show ¬((2:Nat) < 2 - 1) from by decide), and_true, and_false, true_and, false_and,
             if_true, if_false, ite_true, ite_false]
           omega)
      · rw [hm] at he
        rw [show days_before_month_tbl 3 = 59 from rfl,
          show days_in_month_tbl (3 - 1) = 28 from rfl] at he
        simp only [(show (2:Nat) < 3 from by decide), (show (3:Nat) - 1 = 2 from by decide), if_true, if_false, ite_true, ite_false,
          eq_self_iff_true] at he
        split_ifs at he with hadj <;>
          (simp only [Prod.mk.injEq] at he
           obtain ⟨hy, hmm2, hd⟩ := he
           subst hy; subst hmm2; subst hd
           simp only [ymd2ord, days_before_year, Nat.add_sub_cancel, hLY,
             show days_before_month_tbl 3 = 59 from rfl,
             show days_before_month_tbl (3 - 1) = 31 from rfl,
             (show (2:Nat) < 3 from by decide), (show ¬((2:Nat) < 3 - 1) from by decide), and_true, and_false, true_and, false_and,
             if_true, if_false, ite_true, ite_false]
           omega)
      · rw [hm] at he
        rw [show days_before_month_tbl 4 = 90 from rfl,
          show days_in_month_tbl (4 - 1) = 31 from rfl] at he
        simp only [(show (2:Nat) < 4 from by decide), (show ¬((4:Nat) - 1 = 2) from by decide), if_true, if_false, ite_true, ite_false,
          eq_self_iff_true] at he
        split_ifs at he with hadj <;>
          (simp only [Prod.mk.injEq] at he
           obtain ⟨hy, hmm2, hd⟩ := he
           subst hy; subst hmm2; subst hd
           simp only [ymd2ord, days_before_year, Nat.add_sub_cancel, hLY,
             show days_before_month_tbl 4 = 90 from rfl,
             show days_before_month_tbl (4 - 1) = 59 from rfl,
             (show (2:Nat) < 4 from by decide), (show (2:Nat) < 4 - 1 from by decide), and_true, and_false, true_and, false_and,
             if_true, if_false, ite_true, ite_false]
           omega)
      · rw [hm] at he
        rw [show days_before_month_tbl 5 = 120 from rfl,
          show days_in_month_tbl (5 - 1) = 30 from rfl] at he
        simp only [(show (2:Nat) < 5 from by decide), (show ¬((5:Nat) - 1 = 2) from by decide), if_true, if_false, ite_true, ite_false,
          eq_self_iff_true] at he
        split_ifs at he with hadj <;>
          (simp only [Prod.mk.injEq] at he
           obtain ⟨hy, hmm2, hd⟩ := he
           subst hy; subst hmm2; subst hd
           simp only [ymd2ord, days_before_year, Nat.add_sub_cancel, hLY,
             show days_before_month_tbl 5 = 120 from rfl,
             show days_before_month_tbl (5 - 1) = 90 from rfl,
             (show (2:Nat) < 5 from by decide), (show (2:Nat) < 5 - 1 from by decide), and_true, and_false, true_and, false_and,
             if_true, if_false, ite_true, ite_false]
           omega)
      · rw [hm] at he
        rw [show days_before_month_tbl 6 = 151 from rfl,
          show days_in_month_tbl (6 - 1) = 31 from rfl] at he
        simp only [(show (2:Nat) < 6 from by decide), (show ¬((6:Nat) - 1 = 2) from by decide), if_true, if_false, ite_true, ite_false,
          eq_self_iff_true] at he
        split_ifs at he with hadj <;>
          (simp only [Prod.mk.injEq] at he
           obtain ⟨hy, hmm2, hd⟩ := he
           subst hy; subst hmm2; subst hd
           simp only [ymd2ord, days_before_year, Nat.add_sub_cancel, hLY,
             show days_before_month_tbl 6 = 151 from rfl,
             show days_before_month_tbl (6 - 1) = 120 from rfl,
             (show (2:Nat) < 6 from by decide), (show (2:Nat) < 6 - 1 from by decide), and_true, and_false, true_and, false_and,
             if_true, if_false, ite_true, ite_false]
           omega)
      · rw [hm] at he
        rw [show days_before_month_tbl 7 = 181 from rfl,
          show days_in_month_tbl (7 - 1) = 30 from rfl] at he
        simp only [(show (2:Nat) < 7 from by decide), (show ¬((7:Nat) - 1 = 2) from by decide), if_true, if_false, ite_true, ite_false,
          eq_self_iff_true] at he
        split_ifs at he with hadj <;>
          (simp only [Prod.mk.injEq] at he
           obtain ⟨hy, hmm2, hd⟩ := he
           subst hy; subst hmm2; subst hd
           simp only [ymd2ord, days_before_year, Nat.add_sub_cancel, hLY,
             show days_before_month_tbl 7 = 181 from rfl,
             show days_before_month_tbl (7 - 1) = 151 from rfl,
             (show (2:Nat) < 7 from by decide), (show (2:Nat) < 7 - 1 from by decide), and_true, and_false, true_and, false_and,
             if_true, if_false, ite_true, ite_false]
           omega)
      · rw [hm] at he
        rw [show days_before_month_tbl 8 = 212 from rfl,
          show days_in_month_tbl (8 - 1) = 31 from rfl] at he
        simp only [(show (2:Nat) < 8 from by decide), (show ¬((8:Nat) - 1 = 2) from by decide), if_true, if_false, ite_true, ite_false,
          eq_self_iff_true] at he
        split_ifs at he with hadj <;>
          (simp only [Prod.mk.injEq] at he
           obtain ⟨hy, hmm2, hd⟩ := he
           subst hy; subst hmm2; subst hd
           simp only [ymd2ord, days_before_year, Nat.add_sub_cancel, hLY,
             show days_before_month_tbl 8 = 212 from rfl,
             show days_before_month_tbl (8 - 1) = 181 from rfl,
             (show (2:Nat) < 8 from by decide), (show (2:Nat) < 8 - 1 from by decide), and_true, and_false, true_and, false_and,
             if_true, if_false, ite_true, ite_false]
           omega)
      · rw [hm] at he
        rw [show days_before_month_tbl 9 = 243 from rfl,
          show days_in_month_tbl (9 - 1) = 31 from rfl] at he
        simp only [(show (2:Nat) < 9 from by decide), (show ¬((9:Nat) - 1 = 2) from by decide), if_true, if_false, ite_true, ite_false,
          eq_self_iff_true] at he
        split_ifs at he with hadj <;>
          (simp only [Prod.mk.injEq] at he
           obtain ⟨hy, hmm2, hd⟩ := he
           subst hy; subst hmm2; subst hd
           simp only [ymd2ord, days_before_year, Nat.add_sub_cancel, hLY,
             show days_before_month_tbl 9 = 243 from rfl,
             show days_before_month_tbl (9 - 1) = 212 from rfl,
             (show (2:Nat) < 9 from by decide), (show (2:Nat) < 9 - 1 from by decide), and_true, and_false, true_and, false_and,
             if_true, if_false, ite_true, ite_false]
           omega)
      · rw [hm] at he
        rw [show days_before_month_tbl 10 = 273 from rfl,
          show days_in_month_tbl (10 - 1) = 30 from rfl] at he
        simp only [(show (2:Nat) < 10 from by decide), (show ¬((10:Nat) - 1 = 2) from by decide), if_true, if_false, ite_true, ite_false,
          eq_self_iff_true] at he
        split_ifs at he with hadj <;>
          (simp only [Prod.mk.injEq] at he
           obtain ⟨hy, hmm2, hd⟩ := he
           subst hy; subst hmm2; subst hd
           simp only [ymd2ord, days_before_year, Nat.add_sub_cancel, hLY,
             show days_before_month_tbl 10 = 273 from rfl,
             show days_before_month_tbl (10 - 1) = 243 from rfl,
             (show (2:Nat) < 10 from by decide), (show (2:Nat) < 10 - 1 from by decide), and_true, and_false, true_and, false_and,
             if_true, if_false, ite_true, ite_false]
           omega)
      · rw [hm] at he
        rw [show days_before_month_tbl 11 = 304 from rfl,
          show days_in_month_tbl (11 - 1) = 31 from rfl] at he
        simp only [(show (2:Nat) < 11 from by decide), (show ¬((11:Nat) - 1 = 2) from by decide), if_true, if_false, ite_true, ite_false,
          eq_self_iff_true] at he
        split_ifs at he with hadj <;>
          (simp only [Prod.mk.injEq] at he
           obtain ⟨hy, hmm2, hd⟩ := he
           subst hy; subst hmm2; subst hd
           simp only [ymd2ord, days_before_year, Nat.add_sub_cancel, hLY,
             show days_before_month_tbl 11 = 304 from rfl,
             show days_before_month_tbl (11 - 1) = 273 from rfl,
             (show (2:Nat) < 11 from by decide), (show (2:Nat) < 11 - 1 from by decide), and_true, and_false, true_and, false_and,
             if_true, if_false, ite_true, ite_false]
           omega)
      · rw [hm] at he
        rw [show days_before_month_tbl 12 = 334 from rfl,
          show days_in_month_tbl (12 - 1) = 30 from rfl] at he
        simp only [(show (2:Nat) < 12 from by decide), (show ¬((12:Nat) - 1 = 2) from by decide), if_true, if_false, ite_true, ite_false,
          eq_self_iff_true] at he
        split_ifs at he with hadj <;>
          (simp only [Prod.mk.injEq] at he
           obtain ⟨hy, hmm2, hd⟩ := he
           subst hy; subst hmm2; subst hd
           simp only [ymd2ord, days_before_year, Nat.add_sub_cancel, hLY,
             show days_before_month_tbl 12 = 334 from rfl,
             show days_before_month_tbl (12 - 1) = 304 from rfl,
             (show (2:Nat) < 12 from by decide), (show (2:Nat) < 12 - 1 from by decide), and_true, and_false, true_and, false_and,
             if_true, if_false, ite_true, ite_false]
           omega)
    · have hLY : ¬ is_leap (q400 * 400 + q100 * 100 + q4 * 4 + q1 + 1) :=
        fun hc => hL (hLiff.mp hc)
      simp only [if_neg hL] at he
      rcases hm12 with hm|hm|hm|hm|hm|hm|hm|hm|hm|hm|hm|hm
      · rw [hm] at he
        rw [show days_before_month_tbl 1 = 0 from rfl,
          show days_in_month_tbl (1 - 1) = 0 from rfl] at he
        simp only [(show ¬((2:Nat) < 1) from by decide), (show ¬((1:Nat) - 1 = 2) from by decide), if_true, if_false, ite_true, ite_false,
          eq_self_iff_true] at he
        split_ifs at he with hadj <;>
          (simp only [Prod.mk.injEq] at he
           obtain ⟨hy, hmm2, hd⟩ := he
           subst hy; subst hmm2; subst hd
           simp only [ymd2ord, days_before_year, Nat.add_sub_cancel, hLY,
             show days_before_month_tbl 1 = 0 from rfl,
             show days_before_month_tbl (1 - 1) = 335 from rfl,
             (show ¬((2:Nat) < 1) from by decide), (show ¬((2:Nat) < 1 - 1) from by decide), and_true, and_false, true_and, false_and,
             if_true, if_false, ite_true, ite_false]
           omega)
      · rw [hm] at he
        rw [show days_before_month_tbl 2 = 31 from rfl,
          show days_in_month_tbl (2 - 1) = 31 from rfl] at he
        simp only [(show ¬((2:Nat) < 2) from by decide), (show ¬((2:Nat) - 1 = 2) from by decide), if_true, if_false, ite_true, ite_false,
          eq_self_iff_true] at he
        split_ifs at he with hadj <;>
          (simp only [Prod.mk.injEq] at he
           obtain ⟨hy, hmm2, hd⟩ := he
           subst hy; subst hmm2; subst hd
           simp only [ymd2ord, days_before_year, Nat.add_sub_cancel, hLY,
             show days_before_month_tbl 2 = 31 from rfl,
             show days_before_month_tbl (2 - 1) = 0 from rfl,
             (show ¬((2:Nat) < 2) from by decide), (show ¬((2:Nat) < 2 - 1) from by decide), and_true, and_false, true_and, false_and,
             if_true, if_false, ite_true, ite_false]
           omega)
      · rw [hm] at he
        rw [show days_before_month_tbl 3 = 59 from rfl,
          show days_in_month_tbl (3 - 1) = 28 from rfl] at he
        simp only [(show (2:Nat) < 3 from by decide), (show (3:Nat) - 1 = 2 from by decide), if_true, if_false, ite_true, ite_false,
          eq_self_iff_true] at he
        split_ifs at he with hadj <;>
          (simp only [Prod.mk.injEq] at he
           obtain ⟨hy, hmm2, hd⟩ := he
           subst hy; subst hmm2; subst hd
           simp only [ymd2ord, days_before_year, Nat.add_sub_cancel, hLY,
             show days_before_month_tbl 3 = 59 from rfl,
             show days_before_month_tbl (3 - 1) = 31 from rfl,
             (show (2:Nat) < 3 from by decide), (show ¬((2:Nat) < 3 - 1) from by decide), and_true, and_false, true_and, false_and,
             if_true, if_false, ite_true, ite_false]
           omega)
      · rw [hm] at he
        rw [show days_before_month_tbl 4 = 90 from rfl,
          show days_in_month_tbl (4 - 1) = 31 from rfl] at he
        simp only [(show (2:Nat) < 4 from by decide), (show ¬((4:Nat) - 1 = 2) from by decide), if_true, if_false, ite_true, ite_false,
          eq_self_iff_true] at he
        split_ifs at he with hadj <;>
          (simp only [Prod.mk.injEq] at he
           obtain ⟨hy, hmm2, hd⟩ := he
           subst hy; subst hmm2; subst hd
           simp only [ymd2ord, days_before_year, Nat.add_sub_cancel, hLY,
             show days_before_month_tbl 4 = 90 from rfl,
             show days_before_month_tbl (4 - 1) = 59 from rfl,
             (show (2:Nat) < 4 from by decide), (show (2:Nat) < 4 - 1 from by decide), and_true, and_false, true_and, false_and,
             if_true, if_false, ite_true, ite_false]
           omega)
      · rw [hm] at he
        rw [show days_before_month_tbl 5 = 120 from rfl,
          show days_in_month_tbl (5 - 1) = 30 from rfl] at he
        simp only [(show (2:Nat) < 5 from by decide), (show ¬((5:Nat) - 1 = 2) from by decide), if_true, if_false, ite_true, ite_false,
          eq_self_iff_true] at he
        split_ifs at he with hadj <;>
          (simp only [Prod.mk.injEq] at he
           obtain ⟨hy, hmm2, hd⟩ := he
           subst hy; subst hmm2; subst hd
           simp only [ymd2ord, days_before_year, Nat.add_sub_cancel, hLY,
             show days_before_month_tbl 5 = 120 from rfl,
             show days_before_month_tbl (5 - 1) = 90 from rfl,
             (show (2:Nat) < 5 from by decide), (show (2:Nat) < 5 - 1 from by decide), and_true, and_false, true_and, false_and,
             if_true, if_false, ite_true, ite_false]
           omega)
      · rw [hm] at he
        rw [show days_before_month_tbl 6 = 151 from rfl,
          show days_in_month_tbl (6 - 1) = 31 from rfl] at he
        simp only [(show (2:Nat) < 6 from by decide), (show ¬((6:Nat) - 1 = 2) from by decide), if_true, if_false, ite_true, ite_false,
          eq_self_iff_true] at he
        split_ifs at he with hadj <;>
          (simp only [Prod.mk.injEq] at he
           obtain ⟨hy, hmm2, hd⟩ := he
           subst hy; subst hmm2; subst hd
           simp only [ymd2ord, days_before_year, Nat.add_sub_cancel, hLY,
             show days_before_month_tbl 6 = 151 from rfl,
             show days_before_month_tbl (6 - 1) = 120 from rfl,
             (show (2:Nat) < 6 from by decide), (show (2:Nat) < 6 - 1 from by decide), and_true, and_false, true_and, false_and,
             if_true, if_false, ite_true, ite_false]
           omega)
      · rw [hm] at he
        rw [show days_before_month_tbl 7 = 181 from rfl,
          show days_in_month_tbl (7 - 1) = 30 from rfl] at he
        simp only [(show (2:Nat) < 7 from by decide), (show ¬((7:Nat) - 1 = 2) from by decide), if_true, if_false, ite_true, ite_false,
          eq_self_iff_true] at he
        split_ifs at he with hadj <;>
          (simp only [Prod.mk.injEq] at he
           obtain ⟨hy, hmm2, hd⟩ := he
           subst hy; subst hmm2; subst hd
           simp only [ymd2ord, days_before_year, Nat.add_sub_cancel, hLY,
             show days_before_month_tbl 7 = 181 from rfl,
             show days_before_month_tbl (7 - 1) = 151 from rfl,
             (show (2:Nat) < 7 from by decide), (show (2:Nat) < 7 - 1 from by decide), and_true, and_false, true_and, false_and,
             if_true, if_false, ite_true, ite_false]
           omega)
      · rw [hm] at he
        rw [show days_before_month_tbl 8 = 212 from rfl,
          show days_in_month_tbl (8 - 1) = 31 from rfl] at he
        simp only [(show (2:Nat) < 8 from by decide), (show ¬((8:Nat) - 1 = 2) from by decide), if_true, if_false, ite_true, ite_false,
          eq_self_iff_true] at he
        split_ifs at he with hadj <;>
          (simp only [Prod.mk.injEq] at he
           obtain ⟨hy, hmm2, hd⟩ := he
           subst hy; subst hmm2; subst hd
           simp only [ymd2ord, days_before_year, Nat.add_sub_cancel, hLY,
             show days_before_month_tbl 8 = 212 from rfl,
             show days_before_month_tbl (8 - 1) = 181 from rfl,
             (show (2:Nat) < 8 from by decide), (show (2:Nat) < 8 - 1 from by decide), and_true, and_false, true_and, false_and,
             if_true, if_false, ite_true, ite_false]
           omega)
      · rw [hm] at he
        rw [show days_before_month_tbl 9 = 243 from rfl,
          show days_in_month_tbl (9 - 1) = 31 from rfl] at he
        simp only [(show (2:Nat) < 9 from by decide), (show ¬((9:Nat) - 1 = 2) from by decide), if_true, if_false, ite_true, ite_false,
          eq_self_iff_true] at he
        split_ifs at he with hadj <;>
          (simp only [Prod.mk.injEq] at he
           obtain ⟨hy, hmm2, hd⟩ := he
           subst hy; subst hmm2; subst hd
           simp only [ymd2ord, days_before_year, Nat.add_sub_cancel, hLY,
             show days_before_month_tbl 9 = 243 from rfl,
             show days_before_month_tbl (9 - 1) = 212 from rfl,
             (show (2:Nat) < 9 from by decide), (show (2:Nat) < 9 - 1 from by decide), and_true, and_false, true_and, false_and,
             if_true, if_false, ite_true, ite_false]
           omega)
      · rw [hm] at he
        rw [show days_before_month_tbl 10 = 273 from rfl,
          show days_in_month_tbl (10 - 1) = 30 from rfl] at he
        simp only [(show (2:Nat) < 10 from by decide), (show ¬((10:Nat) - 1 = 2) from by decide), if_true, if_false, ite_true, ite_false,
          eq_self_iff_true] at he
        split_ifs at he with hadj <;>
          (simp only [Prod.mk.injEq] at he
           obtain ⟨hy, hmm2, hd⟩ := he
           subst hy; subst hmm2; subst hd
           simp only [ymd2ord, days_before_year, Nat.add_sub_cancel, hLY,
             show days_before_month_tbl 10 = 273 from rfl,
             show days_before_month_tbl (10 - 1) = 243 from rfl,
             (show (2:Nat) < 10 from by decide), (show (2:Nat) < 10 - 1 from by decide), and_true, and_false, true_and, false_and,
             if_true, if_false, ite_true, ite_false]
           omega)
      · rw [hm] at he
        rw [show days_before_month_tbl 11 = 304 from rfl,
          show days_in_month_tbl (11 - 1) = 31 from rfl] at he
        simp only [(show (2:Nat) < 11 from by decide), (show ¬((11:Nat) - 1 = 2) from by decide), if_true, if_false, ite_true, ite_false,
          eq_self_iff_true] at he
        split_ifs at he with hadj <;>
          (simp only [Prod.mk.injEq] at he
           obtain ⟨hy, hmm2, hd⟩ := he
           subst hy; subst hmm2; subst hd
           simp only [ymd2ord, days_before_year, Nat.add_sub_cancel, hLY,
             show days_before_month_tbl 11 = 304 from rfl,
             show days_before_month_tbl (11 - 1) = 273 from rfl,
             (show (2:Nat) < 11 from by decide), (show (2:Nat) < 11 - 1 from by decide), and_true, and_false, true_and, false_and,
             if_true, if_false, ite_true, ite_false]
           omega)
      · rw [hm] at he
        rw [show days_before_month_tbl 12 = 334 from rfl,
          show days_in_month_tbl (12 - 1) = 30 from rfl] at he
        simp only [(show (2:Nat) < 12 from by decide), (show ¬((12:Nat) - 1 = 2) from by decide), if_true, if_false, ite_true, ite_false,
          eq_self_iff_true] at he
        split_ifs at he with hadj <;>
          (simp only [Prod.mk.injEq] at he
           obtain ⟨hy, hmm2, hd⟩ := he
           subst hy; subst hmm2; subst hd
           simp only [ymd2ord, days_before_year, Nat.add_sub_cancel, hLY,
             show days_before_month_tbl 12 = 334 from rfl,
             show days_before_month_tbl (12 - 1) = 304 from rfl,
             (show (2:Nat) < 12 from by decide), (show (2:Nat) < 12 - 1 from by decide), and_true, and_false, true_and, false_and,
             if_true, if_false, ite_true, ite_false]
           omega)

/-! ## Decimal rendering lemmas -/

/-- The fuel argument of `renderNatAux` is irrelevant once sufficient. -/
theorem renderNatAux_irrel : ∀ f1 f2 n : Nat, n < f1 → n < f2 →
    renderNatAux f1 n = renderNatAux f2 n := by
  intro f1
  induction f1 with
  | zero => intro f2 n h1; omega
  | succ f1 ih =>
    intro f2 n h1 h2
    cases f2 with
    | zero => omega
    | succ f2 =>
      simp only [renderNatAux]
      by_cases h : n < 10
      · rw [if_pos h, if_pos h]
      · rw [if_neg h, if_neg h, ih f2 (n / 10) (by omega) (by omega)]

/-- The defining recurrence of `renderNat`. -/
theorem renderNat_eq (n : Nat) :
    renderNat n = if n < 10 then [digitChar n]
      else renderNat (n / 10) ++ [digitChar (n % 10)] := by
  by_cases h : n < 10
  · rw [if_pos h]
    unfold renderNat
    simp only [renderNatAux, if_pos h]
  · rw [if_neg h]
    unfold renderNat
    rw [← renderNatAux_irrel n (n / 10 + 1) (n / 10) (by omega) (by omega)]
    simp only [renderNatAux, if_neg h]

/-- `digitChar` on a digit has the expected code point. -/
theorem digitChar_toNat (k : Nat) (hk : k < 10) : (digitChar k).toNat = 48 + k := by
  interval_cases k <;> decide

/-- Folding the decimal decoder over `renderNat n` starting from `a`
shifts `a` past the digits and adds `n`. -/
theorem renderNat_foldl (n : Nat) :
    ∀ a : Nat, (renderNat n).foldl (fun a c => 10 * a + (c.toNat - 48)) a
      = a * 10 ^ (renderNat n).length + n := by
  induction n using Nat.strong_induction_on with
  | _ n ih =>
    intro a
    by_cases h : n < 10
    · rw [renderNat_eq, if_pos h]
      simp [List.foldl, digitChar_toNat n h]
      omega
    · rw [renderNat_eq, if_neg h]
      rw [List.foldl_append, List.length_append]
      rw [ih (n / 10) (by omega)]
      simp [List.foldl, digitChar_toNat (n % 10) (by omega)]
      rw [pow_succ]
      have key : 10 * (n / 10) + n % 10 = n := by omega
      calc 10 * (a * 10 ^ (renderNat (n / 10)).length + n / 10) + n % 10
          = a * (10 ^ (renderNat (n / 10)).length * 10)
            + (10 * (n / 10) + n % 10) := by ring
        _ = a * (10 ^ (renderNat (n / 10)).length * 10) + n := by rw [key]

/-- Leading zero padding contributes nothing to the decoded value. -/
theorem replicate_zero_foldl (k : Nat) :
    (List.replicate k '0').foldl (fun a c => 10 * a + (c.toNat - 48)) 0 = 0 := by
  induction k with
  | zero => rfl
  | succ k ih =>
    rw [List.replicate_succ, List.foldl_cons]
    exact ih

/-- `decodeDigits` inverts `padNat`. -/
theorem decodeDigits_padNat (w n : Nat) : decodeDigits (padNat w n) = n := by
  unfold decodeDigits padNat
  rw [List.foldl_append, replicate_zero_foldl, renderNat_foldl]
  simp

/-- One decimal digit for `n < 10`. -/
theorem renderNat_length_one (n : Nat) (h : n < 10) : (renderNat n).length = 1 := by
  rw [renderNat_eq, if_pos h]
  rfl

/-- Two decimal digits for `10 ≤ n < 100`. -/
theorem renderNat_length_two (n : Nat) (h1 : 10 ≤ n) (h2 : n < 100) :
    (renderNat n).length = 2 := by
  rw [renderNat_eq, if_neg (by omega)]
  rw [List.length_append, renderNat_length_one (n / 10) (by omega)]
  rfl

/-- `padNat 2` always yields exactly two characters for `n < 100`. -/
theorem padNat_two_length (n : Nat) (h : n < 100) : (padNat 2 n).length = 2 := by
  unfold padNat
  rw [List.length_append, List.length_replicate]
  by_cases h10 : n < 10
  · rw [renderNat_length_one n h10]
  · rw [renderNat_length_two n (by omega) h]

/-- Zero-padded decimal rendering is injective at any fixed width. -/
theorem padNat_inj {w n1 n2 : Nat} (h : padNat w n1 = padNat w n2) : n1 = n2 := by
  have := congrArg decodeDigits h
  rwa [decodeDigits_padNat, decodeDigits_padNat] at this

/-- Equality of two `%Y-%m-%d_%H`-shaped strings forces the four numeric
fields to agree, provided the two-digit fields are in range. -/
theorem key_fields_inj (y1 m1 d1 h1 y2 m2 d2 h2 : Nat)
    (hm1 : m1 < 100) (hd1 : d1 < 100) (hh1 : h1 < 100)
    (hm2 : m2 < 100) (hd2 : d2 < 100) (hh2 : h2 < 100)
    (h : String.mk (padNat 4 y1 ++ ('-' :: padNat 2 m1) ++ ('-' :: padNat 2 d1)
        ++ ('_' :: padNat 2 h1))
      = String.mk (padNat 4 y2 ++ ('-' :: padNat 2 m2) ++ ('-' :: padNat 2 d2)
        ++ ('_' :: padNat 2 h2))) :
    y1 = y2 ∧ m1 = m2 ∧ d1 = d2 ∧ h1 = h2 := by
  injection h with hl
  simp only [List.append_assoc, List.cons_append] at hl
  obtain ⟨hA, hrest⟩ := List.append_inj' hl (by
    simp only [List.length_cons, List.length_append, padNat_two_length _ hm1,
      padNat_two_length _ hm2, padNat_two_length _ hd1, padNat_two_length _ hd2,
      padNat_two_length _ hh1, padNat_two_length _ hh2])
  injection hrest with hch1 hrest1
  obtain ⟨hM, hrest2⟩ := List.append_inj hrest1
    (by rw [padNat_two_length _ hm1, padNat_two_length _ hm2])
  injection hrest2 with hch2 hrest3
  obtain ⟨hD, hrest4⟩ := List.append_inj hrest3
    (by rw [padNat_two_length _ hd1, padNat_two_length _ hd2])
  injection hrest4 with hch3 hrest5
  exact ⟨padNat_inj hA, padNat_inj hM, padNat_inj hD, padNat_inj hrest5⟩

/-! ## Calendar round trip -/

/-- `days_from_civil` inverts `civil_from_days`, and the produced month and
day are in range. -/
theorem civil_round_trip (z y m d : Nat) (he : civil_from_days z = (y, m, d)) :
    days_from_civil y m d = z ∧ 1 ≤ m ∧ m ≤ 12 ∧ 1 ≤ d ∧ d ≤ 31 := by
  have hsub : z + 719163 - 1 = z + 719162 := by omega
  have he' : ord2ymd_core ((z + 719162) / 146097) ((z + 719162) % 146097 / 36524)
      ((z + 719162) % 146097 % 36524 / 1461)
      ((z + 719162) % 146097 % 36524 % 1461 / 365)
      ((z + 719162) % 146097 % 36524 % 1461 % 365) = (y, m, d) := by
    simpa [civil_from_days, ord2ymd, hsub] using he
  have H := ord2ymd_core_spec ((z + 719162) / 146097)
    ((z + 719162) % 146097 / 36524) ((z + 719162) % 146097 % 36524 / 1461)
    ((z + 719162) % 146097 % 36524 % 1461 / 365)
    ((z + 719162) % 146097 % 36524 % 1461 % 365) y m d
    (by omega) (by omega) (by omega) (by omega)
    (by omega) (by omega) (by omega) he'
  have h1 := H.1
  refine ⟨?_, H.2.1, H.2.2.1, H.2.2.2.1, H.2.2.2.2⟩
  unfold days_from_civil
  omega

/-- The partition key `strftime('%Y-%m-%d_%H')` determines the timestamp's
hour: two timestamps with the same key lie in the same hour. -/
theorem strftime_Ymd_H_inj (t1 t2 : Nat) (h : strftime_Ymd_H t1 = strftime_Ymd_H t2) :
    t1 / 3600 = t2 / 3600 := by
  rcases hc1 : civil_from_days (t1 / 86400) with ⟨y1, m1, d1⟩
  rcases hc2 : civil_from_days (t2 / 86400) with ⟨y2, m2, d2⟩
  have R1 := civil_round_trip _ _ _ _ hc1
  have R2 := civil_round_trip _ _ _ _ hc2
  have h1 : strftime_Ymd_H t1 = String.mk (padNat 4 y1 ++ ('-' :: padNat 2 m1)
      ++ ('-' :: padNat 2 d1) ++ ('_' :: padNat 2 (t1 / 3600 % 24))) := by
    unfold strftime_Ymd_H; rw [hc1]
  have h2 : strftime_Ymd_H t2 = String.mk (padNat 4 y2 ++ ('-' :: padNat 2 m2)
      ++ ('-' :: padNat 2 d2) ++ ('_' :: padNat 2 (t2 / 3600 % 24))) := by
    unfold strftime_Ymd_H; rw [hc2]
  rw [h1, h2] at h
  obtain ⟨hy, hm, hd, hh⟩ := key_fields_inj y1 m1 d1 (t1 / 3600 % 24)
    y2 m2 d2 (t2 / 3600 % 24)
    (by omega) (by omega) (by omega) (by omega) (by omega) (by omega) h
  have e1 : days_from_civil y1 m1 d1 = t1 / 86400 := R1.1
  have e2 : days_from_civil y2 m2 d2 = t2 / 86400 := R2.1
  rw [hy, hm, hd] at e1
  have hz : t1 / 86400 = t2 / 86400 := by rw [← e1, e2]
  omega

/-! ## Theorems: orchestrator draining -/

/-- A fully successful drain writes, in completion order, exactly the
`strftime('%Y-%m-%d_%H')` key of each task's interval start. -/
theorem processor_drain_ok_keys (getResult : SubmittedTask → Except String DataFrame)
    (write : DataFrame → String → Except String Unit) (ts : List SubmittedTask) :
    ∀ (tr : Transformer) (keys : List String) (tr2 : Transformer),
      processor_process_future_results getResult write ts tr = .ok (keys, tr2) →
      keys = ts.map (fun t => strftime_Ymd_H t.meta_interval_start_time) := by
  induction ts with
  | nil =>
    intro tr keys tr2 h
    simp only [processor_process_future_results] at h
    injection h with h1
    injection h1 with hk ht
    exact hk.symm
  | cons t ts ih =>
    intro tr keys tr2 h
    simp only [processor_process_future_results] at h
    cases hg : getResult t with
    | error e => simp only [hg] at h; exact Except.noConfusion h
    | ok df =>
      simp only [hg] at h
      cases htr : transform_dask_df tr df with
      | error e => simp only [htr] at h; exact Except.noConfusion h
      | ok res =>
        obtain ⟨tdf, tr1, logs⟩ := res
        simp only [htr] at h
        cases hw : write tdf (strftime_Ymd_H t.meta_interval_start_time) with
        | error e => simp only [hw] at h; exact Except.noConfusion h
        | ok u =>
          simp only [hw] at h
          cases hrec : processor_process_future_results getResult write ts tr1 with
          | error er => simp only [hrec] at h; exact Except.noConfusion h
          | ok pr =>
            obtain ⟨paths, tr3⟩ := pr
            simp only [hrec] at h
            injection h with h1
            injection h1 with hk ht2
            rw [← hk, List.map_cons]
            exact congrArg (List.cons _) (ih tr1 paths tr3 hrec)

/-- The partition keys of the closed-form interval list are pairwise
distinct: distinct windows sit in distinct hours, and the key determines
the hour. -/
theorem interval_keys_pairwise_ne (s n : Nat) :
    (((List.range n).map (fun i => (s + 3600 * i, s + 3600 * i + 3599))).map
      (fun w => strftime_Ymd_H w.1)).Pairwise (fun a b => a ≠ b) := by
  rw [List.map_map]
  refine List.Pairwise.map _ ?_ (List.pairwise_lt_range n)
  intro a b hab hEq
  simp only [Function.comp_apply] at hEq
  have := strftime_Ymd_H_inj _ _ hEq
  omega

/-- C1: a run over a range yielding `N` hourly windows submits exactly `N`
query tasks — task `i` carrying window `i`'s start, end and the
down-sampling rate — and, for every completion order (`completed` is any
permutation of the submitted tasks), a drain in which no task fails performs
exactly `N` partition writes, one per window, keyed by the window start
formatted `%Y-%m-%d_%H`, and these `N` keys are pairwise distinct. -/
theorem C1_submit_count_and_distinct_writes
    (s e : Nat) (h : s < e) (query : String) (dsp : Rat)
    (intervals : List (Nat × Nat))
    (hI : get_hour_intervals (some s) (some e) = .ok intervals)
    (completed : List SubmittedTask)
    (hcomp : completed.Perm (processor_submit_futures query intervals dsp))
    (getResult : SubmittedTask → Except String DataFrame)
    (write : DataFrame → String → Except String Unit)
    (tr tr2 : Transformer) (keys : List String)
    (hrun : processor_process_future_results getResult write completed tr
      = .ok (keys, tr2)) :
    (processor_submit_futures query intervals dsp).length = intervals.length ∧
    (∀ i : Nat, ∀ hi : i < intervals.length,
      ∃ hs : i < (processor_submit_futures query intervals dsp).length,
        (processor_submit_futures query intervals dsp).get ⟨i, hs⟩ =
          { query := query
            params_start_time := (intervals.get ⟨i, hi⟩).1
            params_end_time := (intervals.get ⟨i, hi⟩).2
            params_down_sampling_percentage := dsp
            meta_interval_start_time := (intervals.get ⟨i, hi⟩).1 }) ∧
    keys.length = intervals.length ∧
    keys.Perm (intervals.map (fun w => strftime_Ymd_H w.1)) ∧
    keys.Pairwise (fun a b => a ≠ b) := by
  have hform : intervals = (List.range ((e - s + 3599) / 3600)).map
      (fun i => (s + 3600 * i, s + 3600 * i + 3599)) := by
    have h2 := get_hour_intervals_ok s e h
    rw [hI] at h2
    exact Except.ok.inj h2
  have hkeys := processor_drain_ok_keys getResult write completed tr keys tr2 hrun
  have hmaps : (processor_submit_futures query intervals dsp).map
      (fun t => strftime_Ymd_H t.meta_interval_start_time)
      = intervals.map (fun w => strftime_Ymd_H w.1) := by
    simp [processor_submit_futures, List.map_map, Function.comp]
  refine ⟨?_, ?_, ?_, ?_, ?_⟩
  · simp [processor_submit_futures]
  · intro i hi
    refine ⟨by simpa [processor_submit_futures] using hi, ?_⟩
    simp [processor_submit_futures]
  · rw [hkeys, List.length_map, hcomp.length_eq]
    simp [processor_submit_futures]
  · rw [hkeys]
    have h1 := hcomp.map (fun t => strftime_Ymd_H t.meta_interval_start_time)
    rw [hmaps] at h1
    exact h1
  · rw [hkeys]
    rw [(hcomp.map (fun t => strftime_Ymd_H t.meta_interval_start_time)).pairwise_iff
      (fun hab => Ne.symm hab)]
    rw [hmaps, hform]
    exact interval_keys_pairwise_ne s _

/-- Witness for C1: the range 1970-01-01 00:00:00 – 01:30:00 yields two
windows; draining them in reversed completion order writes the two distinct
keys `1970-01-01_01` and `1970-01-01_00`. -/
theorem C1_submit_count_and_distinct_writes_witness :
    (0 : Nat) < 5400 ∧
    get_hour_intervals (some 0) (some 5400) = .ok [(0, 3599), (3600, 7199)] ∧
    [(⟨"q", 3600, 7199, 1, 3600⟩ : SubmittedTask), ⟨"q", 0, 3599, 1, 0⟩].Perm
      (processor_submit_futures "q" [(0, 3599), (3600, 7199)] 1) ∧
    processor_process_future_results
        (fun _ => .ok ⟨["iddevice", "idproduct_category", "idcategory"], []⟩)
        (fun _ _ => .ok ())
        [⟨"q", 3600, 7199, 1, 3600⟩, ⟨"q", 0, 3599, 1, 0⟩]
        (Transformer.init (Dictionary.init [] [] []))
      = .ok (["1970-01-01_01", "1970-01-01_00"],
             Transformer.init (Dictionary.init [] [] [])) ∧
    ((processor_submit_futures "q" [(0, 3599), (3600, 7199)] 1).length
        = [((0 : Nat), (3599 : Nat)), (3600, 7199)].length ∧
     (∀ i : Nat, ∀ hi : i < [((0 : Nat), (3599 : Nat)), (3600, 7199)].length,
       ∃ hs : i < (processor_submit_futures "q" [(0, 3599), (3600, 7199)] 1).length,
         (processor_submit_futures "q" [(0, 3599), (3600, 7199)] 1).get ⟨i, hs⟩ =
           { query := "q"
             params_start_time := ([((0 : Nat), (3599 : Nat)), (3600, 7199)].get
               ⟨i, hi⟩).1
             params_end_time := ([((0 : Nat), (3599 : Nat)), (3600, 7199)].get
               ⟨i, hi⟩).2
             params_down_sampling_percentage := 1
             meta_interval_start_time := ([((0 : Nat), (3599 : Nat)),
               (3600, 7199)].get ⟨i, hi⟩).1 }) ∧
     (["1970-01-01_01", "1970-01-01_00"] : List String).length
        = [((0 : Nat), (3599 : Nat)), (3600, 7199)].length ∧
     (["1970-01-01_01", "1970-01-01_00"] : List String).Perm
        ([((0 : Nat), (3599 : Nat)), (3600, 7199)].map
          (fun w => strftime_Ymd_H w.1)) ∧
     (["1970-01-01_01", "1970-01-01_00"] : List String).Pairwise
        (fun a b => a ≠ b)) :=
  ⟨by decide, rfl, by decide, rfl,
   C1_submit_count_and_distinct_writes 0 5400 (by decide) "q" 1
     [(0, 3599), (3600, 7199)] rfl
     [⟨"q", 3600, 7199, 1, 3600⟩, ⟨"q", 0, 3599, 1, 0⟩] (by decide)
     (fun _ => .ok ⟨["iddevice", "idproduct_category", "idcategory"], []⟩)
     (fun _ _ => .ok ())
     (Transformer.init (Dictionary.init [] [] []))
     (Transformer.init (Dictionary.init [] [] []))
     ["1970-01-01_01", "1970-01-01_00"] rfl⟩

/-- C2, counterexample: two drains whose single tasks belong to different
windows (starts 0 and 7200) both fail during the transform with the very
same wrapped error — the `TransformError` message carries no window start
time, contradicting the claim that every wrapped error does. -/
theorem C2_missing_window_tag_counterexample :
    processor_process_future_results
        (fun _ => .ok ⟨[], []⟩) (fun _ _ => .ok ())
        [⟨"q", 0, 3599, 1, 0⟩] (Transformer.init (Dictionary.init [] [] [])) =
      .error (.TransformError
        "Failed to transform dataset: KeyError: labels not found in axis") ∧
    processor_process_future_results
        (fun _ => .ok ⟨[], []⟩) (fun _ _ => .ok ())
        [⟨"q", 7200, 10799, 1, 7200⟩] (Transformer.init (Dictionary.init [] [] [])) =
      .error (.TransformError
        "Failed to transform dataset: KeyError: labels not found in axis") :=
  ⟨rfl, rfl⟩

/-- C2, amended: in the `Processor` drain, a query failure surfaces as
`QueryExecutionError` tagged with the window start; a transform failure
surfaces as `TransformError` and a write failure as `StorageWriteError` —
three distinct kinds, the first error terminating the run (the remaining
tasks `ts` are never reached) — but the transform and write wrappers carry
no window start time, and in the `run_etl.py` drain a transform failure and
a write failure both instead surface as a `QueryExecutionError` nesting
`Failed to write:`. -/
theorem C2_error_taxonomy_amended
    (getResult : SubmittedTask → Except String DataFrame)
    (write : DataFrame → String → Except String Unit)
    (t : SubmittedTask) (ts : List SubmittedTask) (tr : Transformer) :
    (∀ e, getResult t = .error e →
      processor_process_future_results getResult write (t :: ts) tr =
        .error (.QueryExecutionError ("An exception occurred for "
          ++ datetime_str t.meta_interval_start_time ++ ": " ++ e))) ∧
    (∀ df e, getResult t = .ok df → transform_dask_df tr df = .error e →
      processor_process_future_results getResult write (t :: ts) tr =
        .error (.TransformError ("Failed to transform dataset: " ++ e)) ∧
      run_etl_process_future_results getResult write (t :: ts) tr =
        .error (.QueryExecutionError ("An exception occurred for "
          ++ datetime_str t.meta_interval_start_time ++ ": "
          ++ ("Failed to write: " ++ e)))) ∧
    (∀ df tdf tr1 logs e, getResult t = .ok df →
      transform_dask_df tr df = .ok (tdf, tr1, logs) →
      write tdf (strftime_Ymd_H t.meta_interval_start_time) = .error e →
      processor_process_future_results getResult write (t :: ts) tr =
        .error (.StorageWriteError ("Failed to write: " ++ e)) ∧
      run_etl_process_future_results getResult write (t :: ts) tr =
        .error (.QueryExecutionError ("An exception occurred for "
          ++ datetime_str t.meta_interval_start_time ++ ": "
          ++ ("Failed to write: " ++ e)))) := by
  refine ⟨?_, ?_, ?_⟩
  · intro e hg
    simp only [processor_process_future_results, hg]
  · intro df e hg htr
    constructor
    · simp only [processor_process_future_results, hg, htr]
    · simp only [run_etl_process_future_results, hg, htr]
  · intro df tdf tr1 logs e hg htr hw
    constructor
    · simp only [processor_process_future_results, hg, htr, hw]
    · simp only [run_etl_process_future_results, hg, htr, hw]

/-- Witness for the amended C2: a transform failure on an empty dataframe
surfaces as `TransformError` in the `Processor` drain and as
`QueryExecutionError` in the `run_etl.py` drain; a write failure after a
successful transform surfaces as `StorageWriteError` in the `Processor`
drain and again as `QueryExecutionError` in the `run_etl.py` drain. -/
theorem C2_error_taxonomy_amended_witness :
    ((fun _ : SubmittedTask =>
        (Except.ok ⟨[], []⟩ : Except String DataFrame))
      (⟨"q", 0, 3599, 1, 0⟩ : SubmittedTask) = .ok ⟨[], []⟩) ∧
    transform_dask_df (Transformer.init (Dictionary.init [] [] [])) ⟨[], []⟩
      = .error "KeyError: labels not found in axis" ∧
    (processor_process_future_results
        (fun _ => .ok ⟨[], []⟩) (fun _ _ => .ok ())
        [⟨"q", 0, 3599, 1, 0⟩] (Transformer.init (Dictionary.init [] [] [])) =
      .error (.TransformError ("Failed to transform dataset: "
        ++ "KeyError: labels not found in axis")) ∧
     run_etl_process_future_results
        (fun _ => .ok ⟨[], []⟩) (fun _ _ => .ok ())
        [⟨"q", 0, 3599, 1, 0⟩] (Transformer.init (Dictionary.init [] [] [])) =
      .error (.QueryExecutionError ("An exception occurred for "
        ++ datetime_str (⟨"q", 0, 3599, 1, 0⟩ : SubmittedTask).meta_interval_start_time
        ++ ": " ++ ("Failed to write: "
        ++ "KeyError: labels not found in axis")))) ∧
    ((fun _ : SubmittedTask =>
        (Except.ok ⟨["iddevice", "idproduct_category", "idcategory"], []⟩ :
          Except String DataFrame))
      (⟨"q", 0, 3599, 1, 0⟩ : SubmittedTask)
      = .ok ⟨["iddevice", "idproduct_category", "idcategory"], []⟩) ∧
    transform_dask_df (Transformer.init (Dictionary.init [] [] []))
        ⟨["iddevice", "idproduct_category", "idcategory"], []⟩
      = .ok (⟨["device_type", "device_brand", "ad_category", "ad_sub_category",
               "content_category", "content_sub_category", "hour_of_day",
               "day_of_week"], []⟩,
             Transformer.init (Dictionary.init [] [] []), []) ∧
    ((fun _ : DataFrame => fun _ : String =>
        (Except.error "disk full" : Except String Unit))
      (⟨["device_type", "device_brand", "ad_category", "ad_sub_category",
         "content_category", "content_sub_category", "hour_of_day",
         "day_of_week"], []⟩ : DataFrame)
      (strftime_Ymd_H (⟨"q", 0, 3599, 1, 0⟩ : SubmittedTask).meta_interval_start_time)
      = .error "disk full") ∧
    (processor_process_future_results
        (fun _ => .ok ⟨["iddevice", "idproduct_category", "idcategory"], []⟩)
        (fun _ _ => .error "disk full")
        [⟨"q", 0, 3599, 1, 0⟩] (Transformer.init (Dictionary.init [] [] [])) =
      .error (.StorageWriteError ("Failed to write: " ++ "disk full")) ∧
     run_etl_process_future_results
        (fun _ => .ok ⟨["iddevice", "idproduct_category", "idcategory"], []⟩)
        (fun _ _ => .error "disk full")
        [⟨"q", 0, 3599, 1, 0⟩] (Transformer.init (Dictionary.init [] [] [])) =
      .error (.QueryExecutionError ("An exception occurred for "
        ++ datetime_str (⟨"q", 0, 3599, 1, 0⟩ : SubmittedTask).meta_interval_start_time
        ++ ": " ++ ("Failed to write: " ++ "disk full")))) :=
  ⟨rfl, rfl,
   (C2_error_taxonomy_amended (fun _ => .ok ⟨[], []⟩) (fun _ _ => .ok ())
     ⟨"q", 0, 3599, 1, 0⟩ [] (Transformer.init (Dictionary.init [] [] []))).2.1
     ⟨[], []⟩ "KeyError: labels not found in axis" rfl rfl,
   rfl, rfl, rfl,
   (C2_error_taxonomy_amended
     (fun _ => .ok ⟨["iddevice", "idproduct_category", "idcategory"], []⟩)
     (fun _ _ => .error "disk full")
     ⟨"q", 0, 3599, 1, 0⟩ [] (Transformer.init (Dictionary.init [] [] []))).2.2
     ⟨["iddevice", "idproduct_category", "idcategory"], []⟩
     ⟨["device_type", "device_brand", "ad_category", "ad_sub_category",
       "content_category", "content_sub_category", "hour_of_day",
       "day_of_week"], []⟩
     (Transformer.init (Dictionary.init [] [] [])) [] "disk full" rfl rfl rfl⟩
